import Mathlib

/-!
Verification of the Intellicare medical-intake orchestrator
(`src/server/orchestrator.py`) against its specification.

The Python source is shallowly embedded: every class method that the claims
depend on becomes a Lean function over explicit state values.  Python strings
are Lean `String`s, `needle in hay` is `containsSub hay needle`, Python sets
that only ever grow are `List String` with `insertStr`, and the Ollama
generation capability (external, may fail) is a parameter `Env.llm : String →
String`.  Python float probabilities are modelled as exact rationals.
`list(set(xs))`, whose order Python leaves unspecified, is modelled as
first-occurrence deduplication (`dedupFirst`); the lists it is applied to are
duplicate-free at every call site, so only the (unspecified) order is chosen.
-/

namespace Intellicare

/-! ## String primitives modelling the Python operations used by the source -/

/-- Python whitespace (`str.strip`, regex `\s`): space, tab, newline, CR, VT, FF. -/
def isPySpace (c : Char) : Bool :=
  c == ' ' || c == '\t' || c == '\n' || c == '\r' || c == '\x0b' || c == '\x0c'

/-- Regex word character `\w` (ASCII): letters, digits, underscore. -/
def isPyWordChar (c : Char) : Bool := c.isAlphanum || c == '_'

/-- Python `str.lower()` (inputs here are ASCII). -/
def toLowerStr (s : String) : String := String.mk (s.toList.map Char.toLower)

/-- Python `str.strip()`. -/
def stripStr (s : String) : String :=
  String.mk (((s.toList.dropWhile isPySpace).reverse.dropWhile isPySpace).reverse)

/-- Scan of `hay` looking for `needle` as a contiguous sublist. -/
def subScan (needle : List Char) : List Char → Bool
  | [] => needle.isEmpty
  | c :: rest => needle.isPrefixOf (c :: rest) || subScan needle rest

/-- Python `needle in hay` for strings (substring containment). -/
def containsSub (hay needle : String) : Bool := subScan needle.toList hay.toList

/-- Python `str.startswith`. -/
def startsWithStr (s p : String) : Bool := p.toList.isPrefixOf s.toList

/-- Python `str.endswith`. -/
def endsWithStr (s p : String) : Bool := p.toList.reverse.isPrefixOf s.toList.reverse

/-- Python `str.rstrip(chars)`. -/
def rstripChars (cs : List Char) (s : String) : String :=
  String.mk ((s.toList.reverse.dropWhile (fun c => cs.contains c)).reverse)

/-- Helper for `splitWS`: whitespace-separated words, empties dropped. -/
def splitWSAux (acc : List Char) : List Char → List (List Char)
  | [] => if acc.isEmpty then [] else [acc.reverse]
  | c :: rest =>
    if isPySpace c then
      (if acc.isEmpty then [] else [acc.reverse]) ++ splitWSAux [] rest
    else splitWSAux (c :: acc) rest

/-- Python `str.split()` (no argument: split on whitespace runs). -/
def splitWS (s : String) : List String := (splitWSAux [] s.toList).map String.mk

/-- Helper for `splitOnChar`. -/
def splitOnCharAux (sep : Char) (acc : List Char) : List Char → List (List Char)
  | [] => [acc.reverse]
  | c :: rest =>
    if c == sep then acc.reverse :: splitOnCharAux sep [] rest
    else splitOnCharAux sep (c :: acc) rest

/-- Python `str.split(sep)` for a one-character separator (keeps empty parts). -/
def splitOnChar (sep : Char) (s : String) : List String :=
  (splitOnCharAux sep [] s.toList).map String.mk

/-- Digit run to a number, as Python `int` on a digit string. -/
def digitsToNat (l : List Char) : Nat :=
  l.foldl (fun n c => n * 10 + (c.toNat - 48)) 0

/-- Helper for `boundedDigitRuns`: walks the text tracking whether the previous
character is a word character and the (reversed) current digit run together
with whether its left boundary was a word boundary. -/
def digitRunsAux : Bool → Option (List Char × Bool) → List Char → List (List Char)
  | _, none, [] => []
  | _, some (run, leftOk), [] => if leftOk then [run.reverse] else []
  | prevW, none, c :: rest =>
    if c.isDigit then digitRunsAux prevW (some ([c], !prevW)) rest
    else digitRunsAux (isPyWordChar c) none rest
  | prevW, some (run, leftOk), c :: rest =>
    if c.isDigit then digitRunsAux prevW (some (c :: run, leftOk)) rest
    else
      (if leftOk && !isPyWordChar c then [run.reverse] else []) ++
        digitRunsAux (isPyWordChar c) none rest

/-- The maximal digit runs of `s` flanked by word boundaries: the candidate
matches of regexes of the shape `\b(\d{1,k})\b` before the length filter. -/
def boundedDigitRuns (s : String) : List (List Char) := digitRunsAux false none s.toList

/-- First maximal digit run of `s`, as `re.search(r'(\d+)', s)`. -/
def firstDigitRunAux : List Char → Option (List Char)
  | [] => none
  | c :: rest =>
    if c.isDigit then some ((c :: rest).takeWhile Char.isDigit) else firstDigitRunAux rest

def firstDigitRun (s : String) : Option (List Char) := firstDigitRunAux s.toList

/-- First-occurrence deduplication, modelling Python `list(set(xs))` on
duplicate-free input (Python leaves the order unspecified). -/
def dedupAux (seen : List String) : List String → List String
  | [] => []
  | x :: rest =>
    if seen.contains x then dedupAux seen rest else x :: dedupAux (x :: seen) rest

def dedupFirst (l : List String) : List String := dedupAux [] l

/-- Python `set.add` on a set modelled as a duplicate-free list. -/
def insertStr (l : List String) (x : String) : List String :=
  if l.contains x then l else l ++ [x]

/-- Python truthiness of an optional string (`None` and `""` are falsy). -/
def pyStrFalsy : Option String → Bool
  | none => true
  | some s => s == ""

/-- Take the first `n` characters, as Python `s[:n]`. -/
def takeChars (n : Nat) (s : String) : String := String.mk (s.toList.take n)

/-! ## SymptomExtractor (source lines 79-372) -/

/-- The `SYMPTOM_DATABASE` set literal, in textual order with the textual
duplicates of the Python set literal removed. -/
def SYMPTOM_DATABASE : List String := [
  "cough", "shortness of breath", "wheezing",
  "chest pain", "sore throat", "runny nose",
  "congestion", "sneezing", "cold",
  "stuffy nose", "difficulty breathing", "tight chest",
  "phlegm", "mucus", "chest tightness",
  "chronic cough", "dry cough", "wet cough",
  "bloody cough", "hemoptysis", "hoarseness",
  "voice loss", "laryngitis", "stridor",
  "rapid breathing", "shallow breathing", "labored breathing",
  "chest congestion", "postnasal drip", "sinus pressure",
  "nasal discharge", "sniffles", "nose bleed",
  "epistaxis", "nausea", "vomiting",
  "diarrhea", "constipation", "abdominal pain",
  "bloating", "loss of appetite", "heartburn",
  "morning sickness", "nauseous", "stomach pain",
  "stomach ache", "belly pain", "cramping",
  "gas", "indigestion", "acid reflux",
  "gerd", "upset stomach", "queasy",
  "bloody stool", "black stool", "tarry stool",
  "rectal bleeding", "blood in stool", "mucus in stool",
  "pale stool", "fatty stool", "foul smelling stool",
  "watery diarrhea", "chronic diarrhea", "abdominal cramps",
  "stomach cramps", "intestinal pain", "bowel pain",
  "difficulty swallowing", "dysphagia", "feeling full",
  "early satiety", "excessive burping", "belching",
  "flatulence", "abdominal distension", "liver pain",
  "jaundice", "yellowing", "yellow eyes",
  "yellow skin", "loss of taste", "metallic taste",
  "bitter taste", "food aversion", "headache",
  "back pain", "joint pain", "muscle pain",
  "neck pain", "leg pain", "knee pain",
  "ankle pain", "shoulder pain", "hip pain",
  "pelvic pain", "cramps", "arm pain",
  "wrist pain", "hand pain", "finger pain",
  "toe pain", "foot pain", "heel pain",
  "elbow pain", "groin pain", "thigh pain",
  "calf pain", "shin pain", "lower back pain",
  "upper back pain", "middle back pain", "tailbone pain",
  "jaw pain", "facial pain", "ear pain",
  "eye pain", "tooth pain", "throat pain",
  "rib pain", "side pain", "flank pain",
  "sciatic pain", "sciatica", "nerve pain",
  "burning pain", "shooting pain", "stabbing pain",
  "throbbing pain", "dull ache", "sharp pain",
  "chronic pain", "migraine", "cluster headache",
  "tension headache", "sinus headache", "fever",
  "chills", "fatigue", "weakness",
  "sweating", "weight loss", "dizziness",
  "fainting", "tired", "exhaustion",
  "dizzy", "weak", "night sweats",
  "cold sweats", "hot flashes", "flushed",
  "feverish", "temperature", "high temperature",
  "low grade fever", "chills and fever", "malaise",
  "lethargy", "sluggish", "lack of energy",
  "always tired", "weakness in limbs", "general weakness",
  "weight gain", "rapid weight loss", "unintentional weight loss",
  "appetite loss", "increased appetite", "dehydration",
  "excessive thirst", "dry mouth", "increased urination",
  "frequent urination", "decreased urination", "dark urine",
  "bloody urine", "painful urination", "burning urination",
  "urgency", "incontinence", "bed wetting",
  "loss of consciousness", "fainting spells", "syncope",
  "presyncope", "lightheaded", "feeling faint",
  "vertigo", "spinning", "balance problems",
  "unsteady", "loss of balance", "falls",
  "stumbling", "confusion", "numbness",
  "tingling", "vision changes", "hearing loss",
  "seizures", "tremors", "memory loss",
  "forgetfulness", "disorientation", "brain fog",
  "difficulty concentrating", "loss of focus", "mental fog",
  "blurred vision", "double vision", "diplopia",
  "vision loss", "blind spots", "floaters",
  "flashing lights", "light sensitivity", "photophobia",
  "ringing in ears", "tinnitus", "ear ringing",
  "muffled hearing", "pins and needles", "burning sensation",
  "electric shock sensation", "paralysis", "muscle weakness",
  "difficulty walking", "difficulty speaking", "slurred speech",
  "speech problems", "aphasia", "trembling",
  "shaking", "twitching", "muscle spasms",
  "involuntary movements", "loss of coordination", "clumsiness",
  "difficulty with balance", "facial drooping", "facial numbness",
  "cognitive decline", "memory problems", "amnesia",
  "blackouts", "palpitations", "irregular heartbeat",
  "chest pressure", "rapid heartbeat", "slow heartbeat",
  "racing heart", "fluttering", "heart flutter",
  "skipped heartbeat", "pounding heart", "tachycardia",
  "bradycardia", "chest discomfort", "pressure in chest",
  "squeezing chest", "angina", "heart pain",
  "radiating pain", "arm pain with chest pain", "cold hands",
  "cold feet", "blue fingers", "blue toes",
  "cyanosis", "swollen ankles", "swollen legs",
  "edema", "leg swelling", "foot swelling",
  "poor circulation", "claudication", "leg pain when walking",
  "rash", "itching", "swelling",
  "bruising", "pale skin", "hives",
  "welts", "red spots", "skin lesions",
  "bumps", "blisters", "sores",
  "ulcers", "boils", "abscess",
  "dry skin", "flaky skin", "peeling skin",
  "cracked skin", "eczema", "psoriasis",
  "acne", "pimples", "blackheads",
  "skin discoloration", "dark spots", "white patches",
  "vitiligo", "moles", "new mole",
  "changing mole", "bleeding mole", "itchy skin",
  "burning skin", "skin burning", "skin pain",
  "sensitive skin", "red skin", "inflamed skin",
  "skin inflammation", "skin infection", "pus",
  "discharge from skin", "oozing", "hair loss",
  "alopecia", "bald patches", "thinning hair",
  "nail changes", "brittle nails", "discolored nails",
  "nail pain", "vaginal bleeding", "missed period",
  "breast tenderness", "tender breasts", "spotting",
  "late period", "no period", "heavy bleeding",
  "heavy period", "menorrhagia", "light period",
  "irregular period", "painful period", "dysmenorrhea",
  "menstrual cramps", "abnormal discharge", "vaginal discharge",
  "foul discharge", "bloody discharge", "vaginal itching",
  "vaginal burning", "vaginal pain", "painful intercourse",
  "breast pain", "breast lump", "nipple discharge",
  "swollen breasts", "pregnancy symptoms", "breast changes",
  "ovulation pain", "mid-cycle pain", "pms",
  "premenstrual syndrome", "mood swings", "irritability",
  "menopause symptoms", "urgent urination", "difficulty urinating",
  "weak stream", "dribbling", "urinary retention",
  "blood in urine", "hematuria", "cloudy urine",
  "foul smelling urine", "urinary incontinence", "leaking urine",
  "kidney pain", "bladder pain", "bladder pressure",
  "stiff joints", "joint stiffness", "swollen joints",
  "joint swelling", "muscle aches", "body aches",
  "sore muscles", "muscle soreness", "muscle cramps",
  "charlie horse", "leg cramps", "back stiffness",
  "neck stiffness", "limited range of motion", "difficulty moving",
  "inability to bend", "difficulty standing", "difficulty sitting",
  "difficulty lying down", "pain when moving", "arthritis pain",
  "gout", "bursitis", "tendonitis",
  "anxiety", "panic", "panic attacks",
  "nervousness", "worry", "depression",
  "sadness", "hopelessness", "feeling down",
  "low mood", "mood changes", "anger",
  "agitation", "restlessness", "insomnia",
  "sleep problems", "difficulty sleeping", "cant sleep",
  "excessive sleeping", "sleeping too much", "drowsiness",
  "sleepiness", "nightmares", "night terrors",
  "sleep disturbances", "suicidal thoughts", "thoughts of self harm",
  "wanting to die", "hallucinations", "hearing voices",
  "seeing things", "delusions", "excessive hunger",
  "always hungry", "polyphagia", "increased thirst",
  "polydipsia", "heat intolerance", "cold intolerance",
  "always cold", "always hot", "thyroid problems",
  "goiter", "neck swelling", "neck lump",
  "allergic reaction", "allergy symptoms", "hay fever",
  "seasonal allergies", "food allergy", "drug allergy",
  "anaphylaxis", "severe allergic reaction", "itchy eyes",
  "watery eyes", "red eyes", "eye redness",
  "swollen face", "facial swelling", "lip swelling",
  "tongue swelling", "difficulty breathing from allergy", "wheezing from allergy",
  "infection symptoms", "signs of infection", "infected wound",
  "swollen lymph nodes", "swollen glands", "tender lymph nodes",
  "lumps in neck", "lumps under arm", "lumps in groin",
  "body aches with fever", "chills with fever", "severe pain",
  "excruciating pain", "unbearable pain", "worst pain ever",
  "crushing chest pain", "sudden severe headache", "thunderclap headache",
  "stroke symptoms", "arm weakness", "speech difficulty",
  "seizure", "convulsions", "fitting",
  "unresponsive", "passed out", "collapsed",
  "heart attack symptoms", "cant breathe", "choking",
  "severe bleeding", "coughing up blood", "vomiting blood",
  "hematemesis", "severe burn", "severe injury",
  "broken bone", "fracture", "head injury",
  "concussion", "unconscious"
]

/-- The `variations` table of `SymptomExtractor.extract` (colloquial phrase →
canonical phrase), in declaration order. -/
def symptomVariations : List (String × String) := [
  ("can't breathe", "difficulty breathing"),
  ("cannot breathe", "difficulty breathing"),
  ("hard to breathe", "difficulty breathing"),
  ("trouble breathing", "difficulty breathing"),
  ("out of breath", "shortness of breath"),
  ("winded", "shortness of breath"),
  ("stuffy", "congestion"),
  ("blocked nose", "congestion"),
  ("nose blocked", "congestion"),
  ("stomach pain", "abdominal pain"),
  ("stomach ache", "abdominal pain"),
  ("belly ache", "abdominal pain"),
  ("tummy ache", "abdominal pain"),
  ("throwing up", "vomiting"),
  ("throw up", "vomiting"),
  ("puking", "vomiting"),
  ("upset stomach", "nausea"),
  ("feel sick", "nausea"),
  ("feeling sick", "nausea"),
  ("queasy", "nausea"),
  ("sick to stomach", "nausea"),
  ("loose stool", "diarrhea"),
  ("runny stool", "diarrhea"),
  ("runs", "diarrhea"),
  ("the runs", "diarrhea"),
  ("temperature", "fever"),
  ("hot", "fever"),
  ("feverish", "fever"),
  ("burning up", "fever"),
  ("high temp", "fever"),
  ("tired", "fatigue"),
  ("exhausted", "fatigue"),
  ("worn out", "fatigue"),
  ("drained", "fatigue"),
  ("no energy", "fatigue"),
  ("wiped out", "fatigue"),
  ("dizzy", "dizziness"),
  ("lightheaded", "dizziness"),
  ("light headed", "dizziness"),
  ("head spinning", "dizziness"),
  ("room spinning", "vertigo"),
  ("sore", "pain"),
  ("aching", "pain"),
  ("hurts", "pain"),
  ("painful", "pain"),
  ("late period", "missed period"),
  ("no period", "missed period"),
  ("period late", "missed period"),
  ("haven't had period", "missed period"),
  ("skipped period", "missed period"),
  ("sore breasts", "breast tenderness"),
  ("tender breasts", "breast tenderness"),
  ("painful breasts", "breast tenderness"),
  ("can't sleep", "insomnia"),
  ("cannot sleep", "insomnia"),
  ("trouble sleeping", "insomnia"),
  ("anxious", "anxiety"),
  ("nervous", "anxiety"),
  ("worried", "anxiety"),
  ("depressed", "depression"),
  ("sad", "depression"),
  ("bumps", "rash"),
  ("spots", "rash"),
  ("blemishes", "rash"),
  ("itchy", "itching"),
  ("scratchy", "itching"),
  ("difficulty walking", "leg pain"),
  ("hard to walk", "leg pain"),
  ("trouble walking", "leg pain"),
  ("can't walk", "leg pain"),
  ("difficulty moving", "joint pain"),
  ("blurry vision", "blurred vision"),
  ("fuzzy vision", "blurred vision"),
  ("can't see clearly", "blurred vision"),
  ("ringing ears", "tinnitus"),
  ("ears ringing", "tinnitus"),
  ("buzzing in ears", "tinnitus"),
  ("burning when peeing", "burning urination"),
  ("painful urination", "burning urination"),
  ("hurts to pee", "burning urination"),
  ("frequent peeing", "frequent urination"),
  ("peeing a lot", "frequent urination")
]

/-- `SymptomExtractor.extract`: direct database matches, then variation
matches whose canonical name is not already present.  The final Python
`list(set(found))` only reorders a duplicate-free list and is modelled as the
identity. -/
def extract (text : String) : List String :=
  let text_lower := toLowerStr text
  let direct := SYMPTOM_DATABASE.filter (fun s => containsSub text_lower s)
  symptomVariations.foldl
    (fun found vc =>
      if containsSub text_lower vc.1 && !found.contains vc.2 then found ++ [vc.2] else found)
    direct

/-! ## PatientProfile (source lines 8-33) -/

/-- `PatientProfile`: the mutable patient record.  `age` fits in `Nat` because
the extractor only stores values in `(0, 120)`. -/
structure PatientProfile where
  name : Option String := none
  age : Option Nat := none
  gender : Option String := none
  symptoms : List String := []
  duration : Option String := none
  severity : Option String := none
  medications : List String := []
  medical_history : List String := []
  recent_travel : Bool := false
  dietary_changes : Bool := false
  fever : Bool := false
  is_pregnant : Option Bool := none
deriving Repr, DecidableEq

/-! ## ConversationState (source lines 375-466) -/

def REQUIRED_INFO : List String :=
  ["age", "gender", "primary_symptoms", "symptom_duration", "symptom_severity",
   "medical_history"]

def CRITICAL_INFO : List String :=
  ["primary_symptoms", "symptom_duration", "symptom_severity", "medical_history"]

def OPTIONAL_INFO : List String := ["age", "gender"]

/-- `ConversationState`: what has been collected/skipped plus the counters. -/
structure ConversationState where
  collected : List String := []
  skipped : List String := []
  turn_count : Nat := 0
  symptom_specific_questions_asked : Nat := 0
  max_symptom_questions : Nat := 3
  max_turns : Nat := 15
  pregnancy_question_asked : Bool := false
  question_attempt_count : List (String × Nat) := []
  last_question_asked : Option String := none
  symptom_question_attempts : Nat := 0
  is_first_user_message : Bool := true
deriving Repr, DecidableEq

/-- `ConversationState.mark_collected`. -/
def mark_collected (state : ConversationState) (info_type : String) : ConversationState :=
  { state with collected := insertStr state.collected info_type }

/-- `ConversationState.mark_skipped`: only optional items are ever added. -/
def mark_skipped (state : ConversationState) (info_type : String) : ConversationState :=
  if OPTIONAL_INFO.contains info_type then
    { state with skipped := insertStr state.skipped info_type }
  else state

/-- `ConversationState.increment_attempt` (returns the new count and state). -/
def increment_attempt (state : ConversationState) (info_type : String) :
    Nat × ConversationState :=
  let old := ((state.question_attempt_count.find? (fun p => p.1 == info_type)).map Prod.snd).getD 0
  let n := old + 1
  (n, { state with question_attempt_count :=
          (state.question_attempt_count.filter (fun p => p.1 != info_type)) ++ [(info_type, n)] })

/-- `ConversationState.mark_symptom_question_asked`. -/
def mark_symptom_question_asked (state : ConversationState) : ConversationState :=
  { state with
    symptom_specific_questions_asked := state.symptom_specific_questions_asked + 1,
    symptom_question_attempts := 0 }

/-- `ConversationState.is_complete`. -/
def is_complete (state : ConversationState) : Bool :=
  let critical_collected := CRITICAL_INFO.all (fun info => state.collected.contains info)
  let optional_handled := OPTIONAL_INFO.all (fun info =>
    state.collected.contains info || state.skipped.contains info)
  let enough_symptom_questions :=
    state.symptom_specific_questions_asked ≥ state.max_symptom_questions
  (critical_collected && optional_handled && enough_symptom_questions) ||
    (state.turn_count ≥ state.max_turns && critical_collected)

/-- `ConversationState.get_missing_info`. -/
def get_missing_info (state : ConversationState) : List String :=
  REQUIRED_INFO.filter (fun info =>
    !state.collected.contains info && !state.skipped.contains info)

/-- `ConversationState.can_ask_symptom_question`. -/
def can_ask_symptom_question (state : ConversationState) : Bool :=
  state.symptom_specific_questions_asked < state.max_symptom_questions

/-! ## InformationParser (source lines 731-1037) -/

/-- `InformationParser._extract_age`: first `\b(\d{1,3})\b` token in `(0, 120)`. -/
def extract_age (text : String) : Option Nat :=
  ((boundedDigitRuns text).filter (fun r => r.length ≤ 3)).findSome? (fun r =>
    let age := digitsToNat r
    if 0 < age && age < 120 then some age else none)

/-- `InformationParser._extract_gender`: female tokens are checked before male
tokens, and a male hit is rejected when "female" occurs in the text. -/
def extract_gender (text : String) : Option String :=
  let text_lower := stripStr (toLowerStr text)
  if ["female", "woman", "girl", "lady"].any (containsSub text_lower) then some "female"
  else if ["male", "man", "boy", "gentleman"].any (containsSub text_lower)
      && !containsSub text_lower "female" then some "male"
  else if text_lower == "f" || text_lower == "female" then some "female"
  else if text_lower == "m" || text_lower == "male" then some "male"
  else none

def mh_response_medical_keywords : List String := [
  "diabetes", "hypertension", "asthma", "heart",
  "kidney", "liver", "thyroid", "cancer",
  "arthritis", "epilepsy", "stroke", "copd",
  "migraine", "depression", "allergy"
]

/-- `InformationParser._is_medical_history_question_response`. -/
def is_medical_history_question_response (text_lower : String) : Bool :=
  (splitWS text_lower).length ≤ 5 ||
  mh_response_medical_keywords.any (containsSub text_lower) ||
  ["no", "none", "nothing", "nope", "not that i know"].any (containsSub text_lower)

def mh_negative_phrases : List String := [
  "no medical", "no chronic", "nothing",
  "not that i know", "no history", "no conditions",
  "don't have any"
]

/-- The `medical_conditions` keyword map of `_extract_medical_history`, in
declaration order. -/
def medical_conditions : List (String × List String) := [
  ("diabetes", ["diabetes", "diabetic", "sugar"]),
  ("hypertension", ["hypertension", "high blood pressure", "bp"]),
  ("asthma", ["asthma", "breathing problem"]),
  ("heart disease", ["heart disease", "cardiac", "heart problem", "heart attack", "angina"]),
  ("kidney disease", ["kidney", "renal"]),
  ("liver disease", ["liver", "hepatitis"]),
  ("thyroid", ["thyroid", "hyperthyroid", "hypothyroid"]),
  ("cancer", ["cancer", "tumor", "malignancy"]),
  ("arthritis", ["arthritis", "joint disease"]),
  ("epilepsy", ["epilepsy", "seizures", "fits"]),
  ("stroke", ["stroke", "cva"]),
  ("copd", ["copd", "emphysema", "chronic bronchitis"]),
  ("migraine", ["migraine", "chronic headache"]),
  ("depression", ["depression", "anxiety", "mental health"]),
  ("allergies", ["allergy", "allergies", "allergic"])
]

/-- `InformationParser._extract_medical_history`: `some []` is an explicit
"no history" answer, `none` means the text was not recognised. -/
def extract_medical_history (text : String) : Option (List String) :=
  let text_lower := stripStr (toLowerStr text)
  if ["no", "none", "nope", "nothing", "not really", "no medical history"].contains text_lower then
    some []
  else if mh_negative_phrases.any (containsSub text_lower)
      && (splitWS text_lower).length ≤ 10 then
    some []
  else
    let found_conditions :=
      (medical_conditions.filter (fun ck => ck.2.any (containsSub text_lower))).map Prod.fst
    if !found_conditions.isEmpty then some found_conditions
    else if (stripStr text).length > 10
        && !(["no", "none", "nothing"].any (containsSub text_lower)) then
      some [stripStr text]
    else none

/-- Helper for `extract_duration`: leftmost match of `(\d+)\s*STEM`, returning
the digit group. -/
def numUnitAux (stem : List Char) : List Char → Option (List Char)
  | [] => none
  | c :: rest =>
    if c.isDigit then
      let run := (c :: rest).takeWhile Char.isDigit
      let after := ((c :: rest).dropWhile Char.isDigit).dropWhile isPySpace
      if stem.isPrefixOf after then some run else numUnitAux stem rest
    else numUnitAux stem rest

/-- The `text_numbers` word-number table of `_extract_duration`, in
declaration order. -/
def text_numbers : List (String × String) := [
  ("one", "1"), ("two", "2"), ("three", "3"), ("four", "4"), ("five", "5"),
  ("six", "6"), ("seven", "7"), ("eight", "8"), ("nine", "9"), ("ten", "10"),
  ("couple", "2"), ("few", "3"), ("several", "3")
]

/-- `InformationParser._extract_duration`. -/
def extract_duration (text : String) : Option String :=
  let text_lower := toLowerStr text
  let patterns : List (String × String) :=
    [("day", "days"), ("week", "weeks"), ("month", "months"),
     ("year", "years"), ("hour", "hours")]
  match patterns.findSome? (fun su =>
      (numUnitAux su.1.toList text_lower.toList).map
        (fun run => String.mk run ++ " " ++ su.2)) with
  | some d => some d
  | none =>
    if containsSub text_lower "yesterday" || containsSub text_lower "since yesterday" then
      some "1 day"
    else if containsSub text_lower "today" || containsSub text_lower "this morning" then
      some "less than 1 day"
    else if containsSub text_lower "last week" then some "1 week"
    else if containsSub text_lower "last month" then some "1 month"
    else
      text_numbers.findSome? (fun wn =>
        if containsSub text_lower (wn.1 ++ " day") then some (wn.2 ++ " days")
        else if containsSub text_lower (wn.1 ++ " week") then some (wn.2 ++ " weeks")
        else if containsSub text_lower (wn.1 ++ " month") then some (wn.2 ++ " months")
        else if containsSub text_lower (wn.1 ++ " year") then some (wn.2 ++ " years")
        else none)

/-- `InformationParser._extract_severity`. -/
def extract_severity (text : String) : Option String :=
  let text_lower := toLowerStr text
  match ((boundedDigitRuns text).filter (fun r => r.length ≤ 2)).findSome? (fun r =>
      let score := digitsToNat r
      if 1 ≤ score && score ≤ 10 then some score else none) with
  | some score =>
    if score ≤ 3 then some ("mild (" ++ toString score ++ "/10)")
    else if score ≤ 6 then some ("moderate (" ++ toString score ++ "/10)")
    else some ("severe (" ++ toString score ++ "/10)")
  | none =>
    if ["severe", "extreme", "unbearable", "worst", "terrible", "intense"].any
        (containsSub text_lower) then some "severe"
    else if ["moderate", "manageable", "noticeable", "significant", "fairly bad"].any
        (containsSub text_lower) then some "moderate"
    else if ["mild", "slight", "minor", "little", "light", "bearable"].any
        (containsSub text_lower) then some "mild"
    else none

/-- `InformationParser._extract_pregnancy_status`. -/
def extract_pregnancy_status (text : String) : Option Bool :=
  let text_lower := toLowerStr text
  if ["yes", "pregnant", "expecting", "i am"].any (containsSub text_lower) then some true
  else if ["no", "not pregnant", "i'm not", "not"].any (containsSub text_lower) then
    some false
  else none

/-- Python truthiness of `patient.gender` combined with the
`gender.lower() in ['female', 'woman', 'f']` test used at source lines 524 and 848. -/
def gender_is_female (patient : PatientProfile) : Bool :=
  match patient.gender with
  | some g => g != "" && ["female", "woman", "f"].contains (toLowerStr g)
  | none => false

def skip_phrases : List String := [
  "skip", "prefer not to say", "prefer not to share",
  "rather not say", "dont want to", "don't want to",
  "pass", "next question"
]

/-- `re.match(r'^\s*\d+\s*$', text)`: the whole text is optional whitespace,
digits, optional whitespace. -/
def matchFullNum (text : String) : Bool :=
  let l := text.toList.dropWhile isPySpace
  let ds := l.takeWhile Char.isDigit
  !ds.isEmpty && (l.dropWhile Char.isDigit).all isPySpace

/-- The unconditional symptom-merging step of `parse_response` (source lines
755-769): extract symptoms, merge them into the record, mark
`primary_symptoms` collected when any are present. -/
def parse_symptom_stage (text : String) (patient : PatientProfile)
    (state : ConversationState) : PatientProfile × ConversationState :=
  let symptoms := extract text
  if symptoms.isEmpty then (patient, state)
  else
    let newSymptoms := symptoms.filter (fun s => !patient.symptoms.contains s)
    let p := { patient with symptoms := dedupFirst (patient.symptoms ++ newSymptoms) }
    if p.symptoms.isEmpty then (p, state) else (p, mark_collected state "primary_symptoms")

/-- The question `parse_response` takes the answer to be for: the first item
still missing after the symptom-merging step (source lines 771-774). -/
def parse_current_question (text : String) (patient : PatientProfile)
    (state : ConversationState) : Option String :=
  (get_missing_info (parse_symptom_stage text patient state).2).head?

/-- The trailing pregnancy block of `parse_response` (source lines 847-856),
reached whenever no earlier block returned. -/
def parse_pregnancy_block (text : String) (is_skip_response : Bool)
    (patient : PatientProfile) (state : ConversationState) :
    PatientProfile × ConversationState :=
  if gender_is_female patient && patient.is_pregnant == none then
    if is_skip_response then ({ patient with is_pregnant := some false }, state)
    else
      match extract_pregnancy_status text with
      | some b => ({ patient with is_pregnant := some b }, state)
      | none => (patient, state)
  else (patient, state)

/-- The medical-history block of `parse_response` (source lines 825-845),
followed by the trailing pregnancy block when it does not return. -/
def parse_history_block (text text_lower : String) (is_skip_response : Bool)
    (current_question : Option String) (patient : PatientProfile)
    (state : ConversationState) : PatientProfile × ConversationState :=
  if !state.collected.contains "medical_history"
      && state.collected.contains "symptom_duration"
      && state.collected.contains "symptom_severity"
      && current_question == some "medical_history"
      && is_medical_history_question_response text_lower
      && (extract_medical_history text).isSome then
    match extract_medical_history text with
    | some info =>
      if info.isEmpty then (patient, mark_collected state "medical_history")
      else ({ patient with medical_history := dedupFirst (patient.medical_history ++ info) },
            mark_collected state "medical_history")
    | none => (patient, state)
  else parse_pregnancy_block text is_skip_response patient state

/-- `InformationParser.parse_response`.  The Python method mutates
`patient`/`state` and uses early returns; here the guarded blocks are
linearised into an if-chain whose final branch is the medical-history block
followed by the trailing pregnancy block (which the source reaches whenever
no earlier block returned). -/
def parse_response (text : String) (patient : PatientProfile) (state : ConversationState) :
    PatientProfile × ConversationState :=
  let text_lower := stripStr (toLowerStr text)
  let is_skip_response := skip_phrases.any (containsSub text_lower)
  let is_declining_optional :=
    ["no", "nope", "nah"].contains text_lower && (splitWS text_lower).length ≤ 2
  let ps := parse_symptom_stage text patient state
  let patient := ps.1
  let state := ps.2
  let missing := get_missing_info state
  let current_question := missing.head?
  let age_guard := !state.collected.contains "age" && !state.skipped.contains "age"
      && current_question == some "age"
  let gender_guard := !state.collected.contains "gender" && !state.skipped.contains "gender"
      && current_question == some "gender"
  if age_guard && (is_skip_response || (is_declining_optional && missing.contains "age")) then
    (patient, mark_skipped state "age")
  else if age_guard && (extract_age text).isSome then
    ({ patient with age := extract_age text }, mark_collected state "age")
  else if gender_guard && (is_skip_response || (is_declining_optional && missing.contains "gender")) then
    (patient, mark_skipped state "gender")
  else if gender_guard && (extract_gender text).isSome then
    ({ patient with gender := extract_gender text }, mark_collected state "gender")
  else if pyStrFalsy patient.duration && current_question == some "symptom_duration"
      && (extract_duration text).isSome then
    ({ patient with duration := extract_duration text }, mark_collected state "symptom_duration")
  else if pyStrFalsy patient.severity && !state.collected.contains "symptom_severity"
      && current_question == some "symptom_severity"
      && (["rate", "scale", "severe", "mild", "moderate", "pain level"].any
            (containsSub text_lower) || matchFullNum text)
      && (extract_severity text).isSome then
    ({ patient with severity := extract_severity text }, mark_collected state "symptom_severity")
  else parse_history_block text text_lower is_skip_response current_question patient state

/-! ## External generation capability

The Ollama client is blocking network I/O; the core treats it as a capability
that maps a prompt to a response string (empty on failure).  `now` stands for
the `datetime.now()` rendering that the report header interpolates. -/

structure Env where
  llm : String → String
  now : String

/-! ## QuestionGenerator (source lines 469-728) -/

def PREGNANCY_RELEVANT_SYMPTOMS : List String := [
  "nausea", "vomiting", "fatigue",
  "missed period", "abdominal pain", "pelvic pain",
  "cramping", "vaginal bleeding", "dizziness",
  "weakness", "morning sickness", "tender breasts",
  "breast tenderness"
]

/-- `QuestionGenerator._is_pregnancy_relevant`: substring search of each
pregnancy-relevant phrase inside the space-joined symptom text. -/
def is_pregnancy_relevant (symptoms : List String) : Bool :=
  if symptoms.isEmpty then false
  else
    let symptom_str := toLowerStr (String.intercalate " " symptoms)
    PREGNANCY_RELEVANT_SYMPTOMS.any (containsSub symptom_str)

/-- Scan for the first `]` before a newline (`re.sub(r'\[.*?\]', ...)`, where
`.` does not match a newline); returns the remainder after it. -/
def takeToCloseBracket : List Char → Option (List Char)
  | [] => none
  | c :: rest =>
    if c == ']' then some rest
    else if c == '\n' then none
    else takeToCloseBracket rest

theorem takeToCloseBracket_length :
    ∀ {l r : List Char}, takeToCloseBracket l = some r → r.length < l.length := by
  intro l
  induction l with
  | nil => intro r h; simp [takeToCloseBracket] at h
  | cons c rest ih =>
    intro r h
    simp only [takeToCloseBracket] at h
    split at h
    · cases h; simp
    · split at h
      · cases h
      · exact Nat.lt_succ_of_lt (ih h)

/-- `re.sub(r'\[.*?\]', '', response)`. -/
def removeBrackets : List Char → List Char
  | [] => []
  | c :: rest =>
    if c == '[' then
      match h : takeToCloseBracket rest with
      | some rem => removeBrackets rem
      | none => c :: removeBrackets rest
    else c :: removeBrackets rest
termination_by l => l.length
decreasing_by
  · exact Nat.lt_succ_of_lt (takeToCloseBracket_length h)
  · simp
  · simp

/-- Scan for the first `)` before a newline; returns the remainder after it. -/
def scanClose : List Char → Option (List Char)
  | [] => none
  | c :: rest =>
    if c == ')' then some rest
    else if c == '\n' then none
    else scanClose rest

theorem scanClose_length :
    ∀ {l r : List Char}, scanClose l = some r → r.length < l.length := by
  intro l
  induction l with
  | nil => intro r h; simp [scanClose] at h
  | cons c rest ih =>
    intro r h
    simp only [scanClose] at h
    split at h
    · cases h; simp
    · split at h
      · cases h
      · exact Nat.lt_succ_of_lt (ih h)

/-- Case-insensitive prefix test against an already-lowercase key. -/
def prefixCI : List Char → List Char → Bool
  | [], _ => true
  | _ :: _, [] => false
  | k :: ks, c :: cs => (Char.toLower c == k) && prefixCI ks cs

/-- Match `.*?KEY.*?\)` after an opening parenthesis: earliest case-insensitive
`KEY` occurrence, then earliest `)`, all before any newline; returns the
remainder after the `)`. -/
def scanKeyClose (key : List Char) : List Char → Option (List Char)
  | [] => none
  | c :: rest =>
    if c == '\n' then none
    else if prefixCI key (c :: rest) then scanClose ((c :: rest).drop key.length)
    else scanKeyClose key rest

theorem scanKeyClose_length {key : List Char} :
    ∀ {l r : List Char}, scanKeyClose key l = some r → r.length < l.length := by
  intro l
  induction l with
  | nil => intro r h; simp [scanKeyClose] at h
  | cons c rest ih =>
    intro r h
    simp only [scanKeyClose] at h
    split at h
    · cases h
    · split at h
      · have h2 := scanClose_length h
        have h3 : ((c :: rest).drop key.length).length ≤ (c :: rest).length := by
          simp [List.length_drop]
        omega
      · exact Nat.lt_succ_of_lt (ih h)

/-- One instruction pattern `re.sub(r'\(.*?KEY.*?\)', '', response, IGNORECASE)`. -/
def removeParenAux (key : List Char) : List Char → List Char
  | [] => []
  | c :: rest =>
    if c == '(' then
      match h : scanKeyClose key rest with
      | some rem => removeParenAux key rem
      | none => c :: removeParenAux key rest
    else c :: removeParenAux key rest
termination_by l => l.length
decreasing_by
  · exact Nat.lt_succ_of_lt (scanKeyClose_length h)
  · simp
  · simp

/-- The middle keys of the six `instruction_patterns` of
`_clean_llm_response`, in order. -/
def instruction_pattern_keys : List String :=
  ["taking notes", "preparing", "assessment", "while", "next step", "these questions"]

def removeInstructionPatterns (s : String) : String :=
  instruction_pattern_keys.foldl (fun r key => String.mk (removeParenAux key.toList r.toList)) s

/-- The leading-label alternatives of
`re.sub(r'^(Question:|Here's a question:|I would ask:|Ask:|Query:)', ...)`,
lowercased, in alternation order. -/
def clean_leading_labels : List String :=
  ["question:", "here's a question:", "i would ask:", "ask:", "query:"]

def dropLeadingLabel (s : String) : String :=
  match clean_leading_labels.findSome? (fun p =>
      if p.toList.isPrefixOf (toLowerStr s).toList then some p.length else none) with
  | some n => String.mk (s.toList.drop n)
  | none => s

/-- The phrase list of the sentence filter in `_clean_llm_response`. -/
def clean_sentence_bad_phrases : List String :=
  ["taking notes", "preparing for", "next step in", "these questions", "ask these",
   "mr.", "mrs.", "ms.", "during the assessment", "while examining"]

/-- `response.split('?')[0] + '?'` when a question mark is present. -/
def takeToQm : List Char → List Char
  | [] => []
  | c :: rest => if c == '?' then [c] else c :: takeToQm rest

/-- The final steps of `_clean_llm_response`: cut at the first question mark,
strip trailing punctuation, guarantee a trailing question mark, strip. -/
def ensureQm (response : String) : String :=
  let response :=
    if containsSub response "?" then String.mk (takeToQm response.toList) else response
  let response := rstripChars ['.', ',', ';', ':', '!'] response
  let response := if endsWithStr response "?" then response else response ++ "?"
  stripStr response

/-- `QuestionGenerator._clean_llm_response`. -/
def clean_llm_response (response : String) : String :=
  let response := stripStr (dropLeadingLabel response)
  let response := String.mk (removeBrackets response.toList)
  let response := removeInstructionPatterns response
  let sentences := splitOnChar '.' response
  let cleaned_sentences := sentences.filterMap (fun sentence =>
    let s := stripStr sentence
    if s != "" && !(clean_sentence_bad_phrases.any (fun ph => containsSub (toLowerStr s) ph))
    then some s else none)
  ensureQm (stripStr (String.intercalate ". " cleaned_sentences))

/-- `QuestionGenerator._get_fallback_symptom_question`. -/
def get_fallback_symptom_question (patient : PatientProfile) (state : ConversationState) :
    String :=
  let symptom_str := toLowerStr (String.intercalate " " patient.symptoms)
  let current_question_num := state.symptom_specific_questions_asked + 1
  if current_question_num == 1 then
    if ["dizzy", "dizziness", "weak", "weakness"].any (containsSub symptom_str) then
      "Are you experiencing any other symptoms like nausea, headache, blurred vision, or chest pain?"
    else if containsSub symptom_str "fever" then
      "Do you have any other symptoms like cough, body aches, headache, or sore throat?"
    else if containsSub symptom_str "pain" then
      "Can you describe the pain quality (sharp, dull, throbbing, or burning)?"
    else
      "Are there any other symptoms you've noticed along with this?"
  else if current_question_num == 2 then
    if ["dizzy", "dizziness"].any (containsSub symptom_str) then
      "Does the dizziness happen all the time, or is it triggered by certain movements (like standing up or turning your head)?"
    else if ["weak", "weakness"].any (containsSub symptom_str) then
      "Is the weakness constant throughout the day, or does it get worse at certain times?"
    else if containsSub symptom_str "pain" then
      "When does the pain feel the worst (morning, evening, during activity, at rest)?"
    else
      "Are your symptoms constant or do they come and go?"
  else
    if ["dizzy", "dizziness", "weak", "weakness"].any (containsSub symptom_str) then
      "Have you noticed anything that makes you feel better (like rest, eating, drinking fluids)?"
    else if containsSub symptom_str "pain" then
      "What helps relieve the pain (rest, medications, heat/ice)?"
    else
      "How are these symptoms affecting your daily activities?"

/-- The prompt of `QuestionGenerator._generate_symptom_specific_question`. -/
def symptomQuestionPrompt (patient : PatientProfile) (last_response : String)
    (state : ConversationState) : String :=
  let symptoms_str := String.intercalate ", " patient.symptoms
  let duration_str := if pyStrFalsy patient.duration then "unknown duration"
    else patient.duration.getD ""
  let severity_str := if pyStrFalsy patient.severity then "unknown severity"
    else patient.severity.getD ""
  let medical_history_str := if patient.medical_history.isEmpty then "none reported"
    else String.intercalate ", " patient.medical_history
  let known_info :=
    "Patient already told us:\n- Symptoms: " ++ symptoms_str ++
    "\n- Duration: " ++ duration_str ++
    "\n- Severity: " ++ severity_str ++
    "\n- Medical history: " ++ medical_history_str ++
    "\n- Previous answer: \"" ++ last_response ++ "\"\n"
  "You are a medical assistant asking follow-up questions about symptoms.\n\n" ++
  known_info ++
  "\n\nThis is question " ++ toString (state.symptom_specific_questions_asked + 1) ++
  " of 3.\n\n" ++
  "Generate ONE brief follow-up question to gather NEW information we don't already have.\n\n" ++
  "DO NOT ask about:\n" ++
  "- Duration (we already know: " ++ duration_str ++ ")\n" ++
  "- Severity (we already know: " ++ severity_str ++ ")\n" ++
  "- Medical history (we already know: " ++ medical_history_str ++ ")\n\n" ++
  "Focus areas for this question:\n" ++
  "Question 1: Associated symptoms they haven't mentioned (fever, nausea, headache, etc.)\n" ++
  "Question 2: Timing and triggers (worse at certain times? triggered by activity?)\n" ++
  "Question 3: Impact and relief (what helps? how does it affect daily life?)\n\n" ++
  "Rules:\n" ++
  "- Keep under 20 words\n" ++
  "- Include examples in parentheses when helpful\n" ++
  "- Ask ONLY one question\n" ++
  "- Don't repeat what they already told us\n\n" ++
  "Question:"

/-- `QuestionGenerator._generate_symptom_specific_question`. -/
def generate_symptom_specific_question (env : Env) (patient : PatientProfile)
    (last_response : String) (state : ConversationState) : String :=
  let question := clean_llm_response (env.llm (symptomQuestionPrompt patient last_response state))
  let question_lower := toLowerStr question
  if ["how long", "duration", "how severe", "rate", "scale of"].any
      (containsSub question_lower) then
    get_fallback_symptom_question patient state
  else if question.length < 10 || question.length > 250 then
    get_fallback_symptom_question patient state
  else question

def greetingQuestion : String :=
  "Hello! I'm your medical assistant. Describe your symptoms and I'll help assess and triage your condition."

def ageQuestion : String :=
  "May I ask your age? (You can say 'skip' if you prefer not to share)"

def genderQuestion : String :=
  "What is your gender? (You can say 'skip' if you prefer not to share)"

def durationQuestion : String :=
  "How long have you been experiencing these symptoms?"

def severityQuestion : String :=
  "On a scale of 1-10, how severe would you rate your symptoms?"

def historyQuestion : String :=
  "Do you have any medical history or chronic conditions (like diabetes, hypertension, asthma, heart disease, etc.) that I should know about?"

def pregnancyQuestion : String :=
  "Is there any chance you could be pregnant, or are you currently pregnant? (You can say 'skip' if you prefer not to share)"

/-- The adaptive-questioning phase of `generate_question` (source lines
547-564): after two failed attempts force progression to the next round, then
generate (or fall back) while rounds remain. -/
def symptom_question_phase (env : Env) (state : ConversationState)
    (patient : PatientProfile) (last_response : String) :
    ConversationState × Option String :=
  let st1 := if state.symptom_question_attempts ≥ 2 then mark_symptom_question_asked state
    else state
  if can_ask_symptom_question st1 then
    let st2 := { st1 with symptom_question_attempts := st1.symptom_question_attempts + 1 }
    let question := generate_symptom_specific_question env patient last_response st2
    let question := if some question == st2.last_question_asked then
        get_fallback_symptom_question patient st2
      else question
    ({ st2 with last_question_asked := some question }, some question)
  else (st1, none)

/-- `QuestionGenerator.generate_question`.  Returns the (possibly mutated)
state together with the next question, `none` meaning "ready to diagnose".
The source computes `is_childbearing_age` before the pregnancy check but its
condition does not use it. -/
def generate_question (env : Env) (state : ConversationState) (patient : PatientProfile)
    (last_response : String) : ConversationState × Option String :=
  if state.turn_count == 0 then (state, some greetingQuestion)
  else
    let missing := get_missing_info state
    if missing.contains "age" then (state, some ageQuestion)
    else if missing.contains "gender" then (state, some genderQuestion)
    else if missing.contains "symptom_duration" then (state, some durationQuestion)
    else if missing.contains "symptom_severity" then (state, some severityQuestion)
    else if missing.contains "medical_history" then (state, some historyQuestion)
    else if missing.isEmpty && !state.pregnancy_question_asked && gender_is_female patient
        && is_pregnancy_relevant patient.symptoms then
      ({ state with pregnancy_question_asked := true }, some pregnancyQuestion)
    else if missing.isEmpty && can_ask_symptom_question state && !patient.symptoms.isEmpty then
      symptom_question_phase env state patient last_response
    else (state, none)

/-! ## DiagnosisEngine (source lines 1042-1387)

Python float probabilities are modelled as exact rationals. -/

/-- One parsed differential diagnosis. -/
structure Diagnosis where
  disease : String
  probability : ℚ
  confidence : String
  explanation : String
deriving Repr, DecidableEq

/-- `TRIAGE_CRITERIA`: level, keywords, severity_min. -/
def TRIAGE_CRITERIA : List (Nat × List String × Nat) := [
  (1, ["chest pain", "difficulty breathing", "severe bleeding", "loss of consciousness",
       "stroke", "heart attack", "severe trauma", "unconscious", "not breathing",
       "severe burn"], 9),
  (2, ["severe pain", "high fever", "confusion", "significant bleeding",
       "suspected fracture", "severe allergic reaction", "dehydration"], 8),
  (3, ["persistent fever", "significant pain", "infection signs", "persistent vomiting"], 6),
  (4, ["moderate pain", "persistent symptoms", "minor infection", "fever"], 4),
  (5, ["mild symptoms", "chronic condition management", "mild pain"], 0)
]

/-- `DEPARTMENT_ROUTING`, in declaration order (the order in which Python
iterates the dict and therefore the tie-break order of `max`). -/
def DEPARTMENT_ROUTING : List (String × List String) := [
  ("Emergency Medicine", ["severe", "acute", "trauma", "immediate", "emergency", "life-threatening"]),
  ("Cardiology", ["chest pain", "heart", "palpitation", "cardiac", "angina", "hypertension"]),
  ("Pulmonology", ["breathing", "cough", "lung", "respiratory", "asthma", "pneumonia"]),
  ("Gastroenterology", ["abdominal pain", "nausea", "vomiting", "diarrhea", "stomach", "liver"]),
  ("Neurology", ["headache", "migraine", "numbness", "seizure", "stroke", "confusion", "dizziness"]),
  ("Orthopedics", ["bone", "joint pain", "fracture", "sprain", "back pain", "arthritis", "leg pain", "knee pain", "ankle pain"]),
  ("Dermatology", ["rash", "itching", "skin", "swelling", "lesion"]),
  ("ENT", ["sore throat", "ear pain", "hearing", "runny nose", "sinus"]),
  ("Infectious Disease", ["fever", "infection", "sepsis", "tuberculosis", "influenza"]),
  ("Obstetrics & Gynecology", ["pregnant", "pregnancy", "pelvic pain", "vaginal bleeding", "missed period"]),
  ("General Medicine", [])
]

/-- Digits after a decimal point as a rational in `[0, 1)`. -/
def fracQ (l : List Char) : ℚ := (digitsToNat l : ℚ) / ((10 : ℚ) ^ l.length)

/-- Whether, after the number, `\s*%` matches (whitespace then a percent sign). -/
def wsThenPercent (l : List Char) : Bool :=
  (l.dropWhile isPySpace).head? == some '%'

/-- `re.search(r'(\d+(?:\.\d+)?)\s*%', s)`: the numeric group of the leftmost
match, as a rational. -/
def searchNumPercentAux : List Char → Option ℚ
  | [] => none
  | c :: rest =>
    if c.isDigit then
      let intPart := (c :: rest).takeWhile Char.isDigit
      let afterInt := (c :: rest).dropWhile Char.isDigit
      match afterInt with
      | '.' :: d :: ds =>
        if d.isDigit then
          let frac := (d :: ds).takeWhile Char.isDigit
          let rem := (d :: ds).dropWhile Char.isDigit
          if wsThenPercent rem then some ((digitsToNat intPart : ℚ) + fracQ frac)
          else searchNumPercentAux rest
        else if wsThenPercent afterInt then some (digitsToNat intPart : ℚ)
        else searchNumPercentAux rest
      | _ =>
        if wsThenPercent afterInt then some (digitsToNat intPart : ℚ)
        else searchNumPercentAux rest
    else searchNumPercentAux rest

def searchNumPercent (s : String) : Option ℚ := searchNumPercentAux s.toList

theorem lenDropWhileLe (p : Char → Bool) (l : List Char) :
    (l.dropWhile p).length ≤ l.length := by
  induction l with
  | nil => simp [List.dropWhile]
  | cons c rest ih =>
    simp only [List.dropWhile]
    split
    · exact Nat.le_succ_of_le ih
    · simp

/-- Whether `\d+(?:\.\d+)?%` matches at the head; returns the remainder.
When the optional fraction group is present but no `%` follows it, the
backtracking attempt without the fraction needs `%` at the `.` and fails. -/
def numPercentHead (l : List Char) : Option (List Char) :=
  match l with
  | c :: _ =>
    if c.isDigit then
      match l.dropWhile Char.isDigit with
      | '.' :: d :: ds =>
        if d.isDigit then
          match (d :: ds).dropWhile Char.isDigit with
          | '%' :: rem => some rem
          | _ => none
        else none
      | '%' :: rem => some rem
      | _ => none
    else none
  | [] => none

theorem numPercentHead_length :
    ∀ {l r : List Char}, numPercentHead l = some r → r.length < l.length := by
  intro l r h
  match l with
  | [] => simp [numPercentHead] at h
  | c :: t =>
    simp only [numPercentHead] at h
    split at h
    case isFalse => cases h
    case isTrue hd =>
      have hdrop : ((c :: t).dropWhile Char.isDigit).length < (c :: t).length := by
        have heq : (c :: t).dropWhile Char.isDigit = t.dropWhile Char.isDigit := by
          simp [List.dropWhile, hd]
        rw [heq]
        have := lenDropWhileLe Char.isDigit t
        simp only [List.length_cons]
        omega
      split at h
      next d ds heq =>
        split at h
        case isTrue hd2 =>
          split at h
          next rem heq2 =>
            cases h
            have h2 : ((d :: ds).dropWhile Char.isDigit).length ≤ (d :: ds).length :=
              lenDropWhileLe Char.isDigit (d :: ds)
            rw [heq2] at h2
            rw [heq] at hdrop
            simp only [List.length_cons] at h2 hdrop ⊢
            omega
          next => cases h
        case isFalse => cases h
      next rem heq =>
        cases h
        rw [heq] at hdrop
        simp only [List.length_cons] at hdrop ⊢
        omega
      next => cases h

/-- `re.sub(r'\d+(?:\.\d+)?%', '', s)`. -/
def removeNumPercentsAux : List Char → List Char
  | [] => []
  | c :: rest =>
    match h : numPercentHead (c :: rest) with
    | some rem => removeNumPercentsAux rem
    | none => c :: removeNumPercentsAux rest
termination_by l => l.length
decreasing_by
  · exact numPercentHead_length h
  · simp

def removeNumPercents (s : String) : String := String.mk (removeNumPercentsAux s.toList)

/-- `re.match(r'^\d+\.\s', line)`. -/
def startsNumDotWs (line : String) : Bool :=
  let l := line.toList
  let ds := l.takeWhile Char.isDigit
  let rest := l.dropWhile Char.isDigit
  !ds.isEmpty &&
    (match rest with
     | '.' :: w :: _ => isPySpace w
     | _ => false)

/-- `re.sub(r'^\d+\.\s*', '', line)`. -/
def dropNumDotWs (line : String) : String :=
  let l := line.toList
  let rest := l.dropWhile Char.isDigit
  match rest with
  | '.' :: tail => String.mk (tail.dropWhile isPySpace)
  | _ => line

/-- `DiagnosisEngine._parse_diagnosis_response`. -/
def parse_diagnosis_response (response : String) : List Diagnosis :=
  let lines := splitOnChar '\n' (stripStr response)
  lines.foldl (fun diagnoses rawLine =>
    let line := stripStr rawLine
    if startsNumDotWs line then
      let line := dropNumDotWs line
      let parts := splitOnChar '-' line
      if parts.length ≥ 2 then
        let disease_name := stripStr (parts.headD "")
        let probability : ℚ :=
          match searchNumPercent (parts.getD 1 "") with
          | some q => q / 100
          | none => (7 / 10 : ℚ) / ((diagnoses.length : ℚ) + 1)
        let explanation :=
          if parts.length > 2 then stripStr (String.intercalate "-" (parts.drop 2))
          else stripStr (parts.getD 1 "")
        let explanation := stripStr (removeNumPercents explanation)
        let confidence : String :=
          if probability ≥ 7 / 10 then "high"
          else if probability ≥ 4 / 10 then "moderate"
          else "low"
        diagnoses ++ [{ disease := disease_name, probability := probability,
                        confidence := confidence, explanation := takeChars 200 explanation }]
      else diagnoses
    else diagnoses) []

/-- `DiagnosisEngine._create_diagnosis_prompt`. -/
def create_diagnosis_prompt (patient : PatientProfile) : String :=
  let base := "You are an experienced medical doctor. Based on the patient information below, provide the top 3 most likely differential diagnoses.\n\nPATIENT INFORMATION:\n"
  let base := base ++ (match patient.age with
    | some a => if a ≠ 0 then "Age: " ++ toString a ++ " years\n" else ""
    | none => "")
  let base := base ++ (match patient.gender with
    | some g => if g ≠ "" then "Gender: " ++ g ++ "\n" else ""
    | none => "")
  let base := base ++ (match patient.is_pregnant with
    | some b => "Pregnant: " ++ (if b then "Yes" else "No") ++ "\n"
    | none => "")
  let base := base ++ (if !patient.symptoms.isEmpty then
    "\nChief Complaints:\n" ++
      String.join (patient.symptoms.map (fun s => "  - " ++ s ++ "\n"))
    else "")
  let base := base ++ (if pyStrFalsy patient.duration then ""
    else "\nDuration: " ++ patient.duration.getD "" ++ "\n")
  let base := base ++ (if pyStrFalsy patient.severity then ""
    else "Severity: " ++ patient.severity.getD "" ++ "\n")
  let base := base ++
    (if !patient.medical_history.isEmpty && patient.medical_history.any (fun i => i ≠ "") then
      "\nMedical History:\n" ++
        String.join (patient.medical_history.map (fun item =>
          if item ≠ "" && !(["no", "none", "nothing"].contains (toLowerStr item)) then
            "  - " ++ item ++ "\n"
          else ""))
    else "")
  base ++
  "\nTASK: Provide exactly 3 differential diagnoses in this exact format:\n\n" ++
  "1. [Disease Name] - [Probability percentage]% - Brief explanation (1-2 sentences)\n" ++
  "2. [Disease Name] - [Probability percentage]% - Brief explanation (1-2 sentences)\n" ++
  "3. [Disease Name] - [Probability percentage]% - Brief explanation (1-2 sentences)\n\n" ++
  "Guidelines:\n" ++
  "- List from most likely to least likely\n" ++
  "- Probability should be realistic and match the clinical picture\n" ++
  "- For acute symptoms of short duration (days), prioritize common acute conditions\n" ++
  "- For fever of 2-3 days with mild severity, think viral infection, flu, common cold\n" ++
  "- Do NOT suggest rare diseases like tuberculosis for simple short-duration fever\n" ++
  "- Consider age, gender, symptoms, duration, and severity\n" ++
  "- Keep explanations brief and clinical\n\n" ++
  "Your diagnosis:"

/-- The short-duration test of `DiagnosisEngine._fallback_diagnosis`
(`is_short_duration` in the source). -/
def is_short_duration (duration_str : String) : Bool :=
  ["day", "days", "hour", "hours", "yesterday", "today"].any (containsSub duration_str)

/-- `DiagnosisEngine._fallback_diagnosis`. -/
def fallback_diagnosis (patient : PatientProfile) : List Diagnosis :=
  let symptom_str := toLowerStr (String.intercalate " " patient.symptoms)
  let duration_str := toLowerStr (patient.duration.getD "")
  let diagnoses : List Diagnosis :=
    if containsSub symptom_str "fever" then
      if is_short_duration duration_str then
        [{ disease := "Viral Upper Respiratory Infection", probability := 65 / 100,
           confidence := "moderate",
           explanation := "Common viral infection causing fever and systemic symptoms" },
         { disease := "Influenza", probability := 25 / 100, confidence := "moderate",
           explanation := "Flu virus causing acute fever and body aches" },
         { disease := "Viral Syndrome", probability := 10 / 100, confidence := "low",
           explanation := "Non-specific viral illness" }]
      else
        [{ disease := "Bacterial Infection", probability := 50 / 100, confidence := "moderate",
           explanation := "Persistent fever may indicate bacterial infection requiring evaluation" },
         { disease := "Chronic Viral Infection", probability := 30 / 100, confidence := "low",
           explanation := "Prolonged viral illness" },
         { disease := "Other Infectious Disease", probability := 20 / 100, confidence := "low",
           explanation := "Requires further diagnostic workup" }]
    else if ["leg pain", "knee pain"].any (containsSub symptom_str) then
      [{ disease := "Musculoskeletal Strain", probability := 60 / 100, confidence := "moderate",
         explanation := "Muscle or joint strain from overuse or injury" },
       { disease := "Osteoarthritis", probability := 30 / 100, confidence := "low",
         explanation := "Degenerative joint disease" },
       { disease := "Peripheral Neuropathy", probability := 10 / 100, confidence := "low",
         explanation := "Nerve-related pain" }]
    else
      [{ disease := "Non-specific Illness", probability := 60 / 100, confidence := "low",
         explanation := "Symptoms require in-person medical evaluation for accurate diagnosis" },
       { disease := "Viral Syndrome", probability := 30 / 100, confidence := "low",
         explanation := "General viral illness" },
       { disease := "Requires Clinical Evaluation", probability := 10 / 100, confidence := "low",
         explanation := "Further diagnostic workup needed" }]
  diagnoses.take 3

/-- `DiagnosisEngine._get_llm_diagnosis`. -/
def get_llm_diagnosis (env : Env) (patient : PatientProfile) : List Diagnosis :=
  let response := env.llm (create_diagnosis_prompt patient)
  let diagnoses := parse_diagnosis_response response
  let diagnoses := if diagnoses.isEmpty then fallback_diagnosis patient else diagnoses
  diagnoses.take 3

/-- The lowercased space-joined symptom/diagnosis/explanation text that both
`_calculate_triage` and `_route_department` build. -/
def combined_text (patient : PatientProfile) (diagnoses : List Diagnosis) : String :=
  toLowerStr (String.intercalate " "
    (patient.symptoms ++ diagnoses.map Diagnosis.disease ++ diagnoses.map Diagnosis.explanation))

/-- The emergency-keyword cascade of `_calculate_triage`: levels 1, 2, 3 in
order, first whose keyword list hits the combined text. -/
def triage_keyword_level (all_text : String) : Option Nat :=
  [1, 2, 3].findSome? (fun level =>
    match TRIAGE_CRITERIA.find? (fun t => t.1 == level) with
    | some t => if t.2.1.any (containsSub all_text) then some level else none
    | none => none)

/-- `DiagnosisEngine._calculate_triage`. -/
def calculate_triage (patient : PatientProfile) (diagnoses : List Diagnosis) : Nat :=
  let all_text := combined_text patient diagnoses
  let fever_step : Nat :=
    if containsSub all_text "fever" then
      let duration_str := toLowerStr (patient.duration.getD "")
      if ["day", "days", "1", "2", "3"].any (containsSub duration_str) then 5 else 4
    else 5
  match triage_keyword_level all_text with
  | some level => level
  | none =>
    match patient.severity with
    | some sev =>
      if sev ≠ "" then
        match firstDigitRun sev with
        | some run =>
          let score := digitsToNat run
          if score ≥ 9 then 2
          else if score ≥ 7 then 3
          else if score ≥ 5 then 4
          else 5
        | none =>
          let severity_str := toLowerStr sev
          if containsSub severity_str "severe" then 2
          else if containsSub severity_str "moderate" then 4
          else if containsSub severity_str "mild" then 5
          else fever_step
      else fever_step
    | none => fever_step

/-- Python `max(scores, key=scores.get)` over an association list built in
iteration order: the first key attaining the maximal value. -/
def maxByFirst (l : List (String × Nat)) : Option String :=
  (l.foldl (fun best x =>
    match best with
    | none => some x
    | some b => if x.2 > b.2 then some x else some b) none).map Prod.fst

/-- `DiagnosisEngine._route_department`. -/
def route_department (patient : PatientProfile) (diagnoses : List Diagnosis) : String :=
  let all_text := combined_text patient diagnoses
  if patient.is_pregnant == some true then "Obstetrics & Gynecology"
  else
    let scores := DEPARTMENT_ROUTING.filterMap (fun dk =>
      let score := (dk.2.filter (containsSub all_text)).length
      if score > 0 then some (dk.1, score) else none)
    match maxByFirst scores with
    | some dept => dept
    | none => "General Medicine"

/-- `DiagnosisEngine._get_triage_message`. -/
def get_triage_message (level : Nat) : String :=
  if level == 1 then "🚨 IMMEDIATE EMERGENCY - Call 911 or go to ER NOW"
  else if level == 2 then "⚠️ URGENT - Seek emergency care within 1 hour"
  else if level == 3 then "⚠️ PRIORITY - See a doctor within 24 hours"
  else if level == 4 then "ℹ️ ROUTINE - Schedule appointment within 3-7 days"
  else if level == 5 then "ℹ️ NON-URGENT - Routine checkup when convenient"
  else ""

/-- The result record of `DiagnosisEngine.diagnose`. -/
structure DiagnosisResult where
  diagnoses : List Diagnosis
  triage_level : Nat
  triage_message : String
  department : String
  patient_profile : PatientProfile
deriving Repr, DecidableEq

/-- `DiagnosisEngine.diagnose`. -/
def diagnose (env : Env) (patient : PatientProfile) : DiagnosisResult :=
  let diagnoses := get_llm_diagnosis env patient
  let triage_level := calculate_triage patient diagnoses
  let department := route_department patient diagnoses
  let triage_message := get_triage_message triage_level
  { diagnoses := diagnoses, triage_level := triage_level, triage_message := triage_message,
    department := department, patient_profile := patient }

/-! ## ReportGenerator (source lines 1392-1481) -/

/-- `"=" * 70` / `"-" * 70`. -/
def repChar (c : Char) (n : Nat) : String := String.mk (List.replicate n c)

/-- Python `str.title()` (ASCII): uppercase each letter that follows a
non-letter, lowercase the rest. -/
def titleCase (s : String) : String :=
  let step := s.toList.foldl (fun (acc : List Char × Bool) c =>
    if c.isAlpha then
      ((if acc.2 then Char.toLower c else Char.toUpper c) :: acc.1, true)
    else (c :: acc.1, false)) ([], false)
  String.mk step.1.reverse

/-- Python `format(x, '.1f')` on a rational: one decimal, ties to even. -/
def formatFixed1 (q : ℚ) : String :=
  let scaled : ℚ := q * 10
  let fl : ℤ := scaled.floor
  let frac : ℚ := scaled - (fl : ℚ)
  let n : ℤ :=
    if frac > 1 / 2 then fl + 1
    else if frac < 1 / 2 then fl
    else if fl % 2 == 0 then fl else fl + 1
  let m := n.natAbs
  (if n < 0 then "-" else "") ++ toString (m / 10) ++ "." ++ toString (m % 10)

/-- `ReportGenerator.generate_report`.  `now` stands for the
`datetime.now().strftime(...)` interpolation; the conversation history
parameter is accepted but unused, as in the source. -/
def generate_report (now : String) (patient : PatientProfile)
    (diagnosis_result : DiagnosisResult)
    (_conversation_history : List (String × String)) : String :=
  let sep70 := repChar '=' 70
  let dash70 := repChar '-' 70
  let report : List String :=
    [sep70, "PATIENT MEDICAL ASSESSMENT REPORT", sep70, "Generated: " ++ now, ""] ++
    ["PATIENT INFORMATION:", dash70] ++
    (match patient.name with
     | some n => if n ≠ "" then ["Name: " ++ n] else []
     | none => []) ++
    [(match patient.age with
      | some a => if a ≠ 0 then "Age: " ++ toString a else "Age: Not provided (patient declined)"
      | none => "Age: Not provided (patient declined)")] ++
    [(match patient.gender with
      | some g => if g ≠ "" then "Gender: " ++ g else "Gender: Not provided (patient declined)"
      | none => "Gender: Not provided (patient declined)")] ++
    (match patient.is_pregnant with
     | some b => ["Pregnant: " ++ (if b then "Yes" else "No")]
     | none => []) ++
    [""] ++
    ["CHIEF COMPLAINTS:", dash70] ++
    (patient.symptoms.enum.map (fun is =>
      "  " ++ toString (is.1 + 1) ++ ". " ++ titleCase is.2)) ++
    [""] ++
    ["SYMPTOM DETAILS:", dash70,
     "Duration: " ++ (if pyStrFalsy patient.duration then "Not specified"
       else patient.duration.getD ""),
     "Severity: " ++ (if pyStrFalsy patient.severity then "Not specified"
       else patient.severity.getD ""),
     ""] ++
    (if !patient.medical_history.isEmpty && patient.medical_history.any (fun i => i ≠ "") then
      ["MEDICAL HISTORY:", dash70] ++
      (patient.medical_history.filterMap (fun item =>
        if item ≠ "" && !(["no", "none"].contains (toLowerStr item)) then
          some ("  • " ++ item)
        else none)) ++
      [""]
    else []) ++
    ["CLINICAL ASSESSMENT:", sep70] ++
    ["\nDifferential Diagnoses (ranked by probability):", dash70] ++
    (diagnosis_result.diagnoses.enum.map (fun id =>
      let diag := id.2
      "\n" ++ toString (id.1 + 1) ++ ". " ++ diag.disease ++ "\n" ++
      "   Probability: " ++ formatFixed1 (diag.probability * 100) ++ "% | Confidence: " ++
        diag.confidence ++
      (if diag.explanation ≠ "" then "\n   Clinical Note: " ++ diag.explanation else ""))) ++
    [""] ++
    ["TRIAGE ASSESSMENT:", dash70,
     "Urgency Level: " ++ toString diagnosis_result.triage_level ++ "/5",
     "Recommendation: " ++ diagnosis_result.triage_message, ""] ++
    ["CARE PATHWAY:", dash70,
     "Recommended Department: " ++ diagnosis_result.department, ""] ++
    [sep70, "IMPORTANT MEDICAL DISCLAIMER:", dash70,
     "This is an AI-assisted preliminary assessment and does NOT constitute",
     "professional medical advice, diagnosis, or treatment.", sep70]
  String.intercalate "\n" report

/-! ## MedicalOrchestrator (source lines 1484-1772) -/

/-- The per-session mutable state owned by one `MedicalOrchestrator`. -/
structure Session where
  patient : PatientProfile := {}
  state : ConversationState := {}
  conversation_history : List (String × String) := []
deriving Repr, DecidableEq

/-- `MedicalOrchestrator.reset` / the state right after construction. -/
def initialSession : Session := {}

/-- The 4-tuple a `chat` call produces, with the updated session made explicit. -/
structure ChatResult where
  session : Session
  message : String
  is_final : Bool
  report : Option String
deriving Repr, DecidableEq

/-- `MedicalOrchestrator._create_summary_response`. -/
def create_summary_response (patient : PatientProfile) (diagnosis_result : DiagnosisResult) :
    String :=
  let sep70 := repChar '=' 70
  let lines : List String :=
    ["\nThank you for providing that information. Based on our conversation, here is my medical assessment:\n",
     sep70, "MEDICAL ASSESSMENT", sep70 ++ "\n", "📋 SYMPTOMS REPORTED:"] ++
    (patient.symptoms.map (fun symptom => "   • " ++ titleCase symptom)) ++
    ["", "🔍 DIFFERENTIAL DIAGNOSES:\n"] ++
    (diagnosis_result.diagnoses.enum.map (fun id =>
      let diag := id.2
      "   " ++ toString (id.1 + 1) ++ ". " ++ diag.disease ++ " (" ++
        formatFixed1 (diag.probability * 100) ++ "% probability)" ++
      (if diag.explanation ≠ "" then "\n      → " ++ diag.explanation else "") ++
      "\n")) ++
    ["🏥 RECOMMENDED DEPARTMENT: " ++ diagnosis_result.department ++ "\n",
     "⚠️  URGENCY ASSESSMENT:",
     "    Level: " ++ toString diagnosis_result.triage_level ++ "/5",
     "    Action: " ++ diagnosis_result.triage_message ++ "\n",
     sep70,
     "⚠️  DISCLAIMER: This is a preliminary AI assessment, not a medical diagnosis.",
     sep70]
  String.intercalate "\n" lines

/-- `MedicalOrchestrator._get_rejection_message`. -/
def rejection_message : String :=
  "⚠️ I'm a medical symptom assessment assistant and can only help with health-related concerns.\n\nPlease describe your medical symptoms or health issues, such as:\n- Physical symptoms (pain, fever, nausea, dizziness, etc.)\n- How long you've been experiencing them\n- Any concerns about your health\n\nExamples of valid queries:\n✅ \"I have a headache and fever\"\n✅ \"I'm feeling dizzy and nauseous\"\n✅ \"I have chest pain that started this morning\"\n✅ \"My stomach hurts and I've been vomiting\"\n✅ \"I'm experiencing shortness of breath\"\n\nFor non-medical questions, please use a general-purpose assistant.\n\nThank you for understanding! 🏥"

/-- `re.search(r'\d+\s*[\+\-\*\/×÷]\s*\d+', s)`. -/
def arithAux : List Char → Bool
  | [] => false
  | c :: rest =>
    (if c.isDigit then
      match ((c :: rest).dropWhile Char.isDigit).dropWhile isPySpace with
      | op :: tail =>
        ['+', '-', '*', '/', '×', '÷'].contains op &&
          (match (tail.dropWhile isPySpace).head? with
           | some d => d.isDigit
           | none => false)
      | [] => false
    else false) || arithAux rest

def matchesArithPattern (s : String) : Bool := arithAux s.toList

/-- `re.search(r'what is \d+', s)`. -/
def whatIsAux : List Char → Bool
  | [] => false
  | c :: rest =>
    ("what is ".toList.isPrefixOf (c :: rest) &&
      (match ((c :: rest).drop 8).head? with
       | some d => d.isDigit
       | none => false)) || whatIsAux rest

def matchesWhatIsNum (s : String) : Bool := whatIsAux s.toList

/-- `re.search(r'^(hi|hello|hey|good morning|good evening|sup|yo)$', s)`:
with both anchors this only matches the whole string. -/
def matchesGreetingOnly (s : String) : Bool :=
  ["hi", "hello", "hey", "good morning", "good evening", "sup", "yo"].contains s

/-- `re.search(r'\bW\b', s)` for an all-word-character word `w`. -/
def wbAux (w : List Char) : Option Char → List Char → Bool
  | _, [] => false
  | prev, c :: rest =>
    (w.isPrefixOf (c :: rest) &&
      (match prev with | none => true | some p => !isPyWordChar p) &&
      (match ((c :: rest).drop w.length).head? with
       | none => true
       | some n => !isPyWordChar n)) || wbAux w (some c) rest

def wordBoundaryContains (s : String) (w : String) : Bool := wbAux w.toList none s.toList

def validation_medical_keywords : List String := [
  "pain", "hurt", "ache", "sore", "sick",
  "ill", "unwell", "feel", "symptom", "problem",
  "issue", "concern", "worried", "doctor", "hospital",
  "medicine", "medication", "treatment", "diagnosis", "suffering",
  "uncomfortable", "discomfort", "bad", "terrible", "awful",
  "worse", "better", "injury", "injured", "wound",
  "bleeding", "swollen", "infected", "infection", "disease",
  "condition", "health", "medical", "emergency", "urgent"
]

/-- `MedicalOrchestrator._validate_initial_input`.  The `non_medical_patterns`
loop rejects on the first match; every match yields the same rejection, so the
patterns are combined into one disjunction in source order. -/
def validate_initial_input (user_input : String) : Bool × String :=
  let user_input_lower := stripStr (toLowerStr user_input)
  if user_input_lower.length < 5 then
    (false, "⚠️ Please describe your medical symptoms or health concerns. This system is designed for medical symptom assessment only.")
  else if !(extract user_input).isEmpty then (true, "")
  else if matchesArithPattern user_input_lower
      || matchesWhatIsNum user_input_lower
      || ["calculate", "solve", "equation", "answer"].any (containsSub user_input_lower)
      || matchesGreetingOnly user_input_lower
      || ["what can you do", "how do you work", "who are you", "what are you",
          "your capabilities", "your purpose", "weather"].any (containsSub user_input_lower)
      || wordBoundaryContains user_input_lower "time"
      || wordBoundaryContains user_input_lower "date"
      || ["news", "sports", "joke", "story", "recipe", "cooking", "directions",
          "navigate", "movie", "music", "game"].any (containsSub user_input_lower) then
    (false, rejection_message)
  else if validation_medical_keywords.any (containsSub user_input_lower) then (true, "")
  else (false, rejection_message)

/-- `MedicalOrchestrator._finalize_diagnosis`. -/
def finalize_diagnosis (env : Env) (sess : Session) : ChatResult :=
  if sess.patient.symptoms.isEmpty then
    { session := sess,
      message := "I'm sorry, I couldn't collect enough information about your symptoms. Please start over and describe your symptoms.",
      is_final := true, report := none }
  else
    let diagnosis_result := diagnose env sess.patient
    let report := generate_report env.now sess.patient diagnosis_result sess.conversation_history
    let response := create_summary_response sess.patient diagnosis_result
    { session := { sess with conversation_history :=
        sess.conversation_history ++ [("assistant", response)] },
      message := response, is_final := true, report := some report }

/-- The parse-and-bookkeeping prefix of `MedicalOrchestrator.chat` (source
lines 1546-1560): parse the response, then advance the adaptive counter when
the user just answered a symptom-specific question. -/
def chat_parse_stage (sess : Session) (user_input : String) : Session :=
  let ps := parse_response user_input sess.patient sess.state
  let patient := ps.1
  let state := ps.2
  let missing := get_missing_info state
  let state :=
    if missing.isEmpty && state.symptom_question_attempts > 0
        && state.symptom_specific_questions_asked < state.max_symptom_questions
        && (stripStr user_input).length > 3 then
      mark_symptom_question_asked state
    else state
  { sess with patient := patient, state := state }

/-- The completion-check and question-planning tail of
`MedicalOrchestrator.chat` (source lines 1562-1600). -/
def chat_question_stage (env : Env) (sess : Session) (user_input : String) : ChatResult :=
  if is_complete sess.state then finalize_diagnosis env sess
  else
    let gq := generate_question env sess.state sess.patient user_input
    match gq.2 with
    | some q =>
      let hist := sess.conversation_history ++ [("assistant", q)]
      { session := { sess with state := gq.1, conversation_history := hist },
        message := q, is_final := false, report := none }
    | none =>
      let sess := { sess with state := gq.1 }
      if is_complete sess.state then finalize_diagnosis env sess
      else
        let gq2 := generate_question env sess.state sess.patient user_input
        match gq2.2 with
        | some q =>
          let hist := sess.conversation_history ++ [("assistant", q)]
          { session := { sess with state := gq2.1, conversation_history := hist },
            message := q, is_final := false, report := none }
        | none => finalize_diagnosis env { sess with state := gq2.1 }

/-- `MedicalOrchestrator.chat`. -/
def chat (env : Env) (sess : Session) (user_input : String) : ChatResult :=
  let state := { sess.state with turn_count := sess.state.turn_count + 1 }
  let hist := sess.conversation_history ++ [("user", user_input)]
  let sess := { sess with state := state, conversation_history := hist }
  if sess.state.is_first_user_message then
    let sess := { sess with state := { sess.state with is_first_user_message := false } }
    let vr := validate_initial_input user_input
    if !vr.1 then
      { session := { sess with conversation_history :=
          sess.conversation_history ++ [("assistant", vr.2)] },
        message := vr.2, is_final := true, report := none }
    else chat_question_stage env (chat_parse_stage sess user_input) user_input
  else chat_question_stage env (chat_parse_stage sess user_input) user_input

/-- `MedicalOrchestrator.get_diagnosis_data`: `none` until the session is
complete. -/
def get_diagnosis_data (env : Env) (sess : Session) : Option DiagnosisResult :=
  if !is_complete sess.state then none
  else some (diagnose env sess.patient)

/-! ## Session reachability and basic lemmas -/

set_option maxRecDepth 100000

/-- The sessions reachable through `chat` calls from a fresh session
(`reset()` yields `initialSession` again, so resets need no extra rule). -/
inductive Reachable : Session → Prop
  | init : Reachable initialSession
  | step (env : Env) (input : String) {s : Session} :
      Reachable s → Reachable (chat env s input).session

theorem containsStr_iff {l : List String} {x : String} : l.contains x = true ↔ x ∈ l :=
  List.elem_iff

theorem mem_insertStr {l : List String} {x y : String} :
    y ∈ insertStr l x ↔ y ∈ l ∨ y = x := by
  unfold insertStr
  split
  case isTrue h =>
    constructor
    · exact Or.inl
    · rintro (hy | rfl)
      · exact hy
      · exact containsStr_iff.mp h
  case isFalse h => simp

theorem subset_insertStr (l : List String) (x : String) : l ⊆ insertStr l x :=
  fun _ hy => mem_insertStr.mpr (Or.inl hy)

theorem mem_dedupAux {x : String} :
    ∀ {l seen : List String}, x ∈ dedupAux seen l ↔ x ∈ l ∧ x ∉ seen := by
  intro l
  induction l with
  | nil => intro seen; simp [dedupAux]
  | cons a rest ih =>
    intro seen
    unfold dedupAux
    split
    case isTrue h =>
      have ha : a ∈ seen := containsStr_iff.mp h
      rw [ih]
      simp only [List.mem_cons]
      constructor
      · rintro ⟨hx, hns⟩
        exact ⟨Or.inr hx, hns⟩
      · rintro ⟨hx | hx, hns⟩
        · exact absurd ha (hx ▸ hns)
        · exact ⟨hx, hns⟩
    case isFalse h =>
      have ha : a ∉ seen := fun hc => h (containsStr_iff.mpr hc)
      constructor
      · intro hx
        rcases List.mem_cons.mp hx with rfl | hx2
        · exact ⟨List.mem_cons_self _ _, ha⟩
        · have h2 := ih.mp hx2
          exact ⟨List.mem_cons_of_mem _ h2.1,
            fun hc => h2.2 (List.mem_cons_of_mem _ hc)⟩
      · rintro ⟨hx, hns⟩
        by_cases hxa : x = a
        · subst hxa
          exact List.mem_cons_self _ _
        · rcases List.mem_cons.mp hx with rfl | hx2
          · exact absurd rfl hxa
          · exact List.mem_cons_of_mem _ (ih.mpr ⟨hx2, fun hc =>
              (List.mem_cons.mp hc).elim (fun he => hxa he) hns⟩)

theorem mem_dedupFirst {l : List String} {x : String} : x ∈ dedupFirst l ↔ x ∈ l := by
  unfold dedupFirst
  rw [mem_dedupAux]
  simp

/-- Pointwise growth of exactly the dialogue-state fields that
`is_complete` is monotone in. -/
structure StGrow (a b : ConversationState) : Prop where
  collected : a.collected ⊆ b.collected
  skipped : a.skipped ⊆ b.skipped
  asked : a.symptom_specific_questions_asked ≤ b.symptom_specific_questions_asked
  turn : a.turn_count ≤ b.turn_count
  maxq : b.max_symptom_questions = a.max_symptom_questions
  maxturns : b.max_turns = a.max_turns

theorem stGrow_refl (a : ConversationState) : StGrow a a :=
  ⟨fun _ h => h, fun _ h => h, le_refl _, le_refl _, rfl, rfl⟩

theorem stGrow_trans {a b c : ConversationState} (h1 : StGrow a b) (h2 : StGrow b c) :
    StGrow a c :=
  ⟨fun _ h => h2.collected (h1.collected h),
   fun _ h => h2.skipped (h1.skipped h),
   le_trans h1.asked h2.asked, le_trans h1.turn h2.turn,
   h2.maxq.trans h1.maxq, h2.maxturns.trans h1.maxturns⟩

theorem is_complete_mono {a b : ConversationState} (h : StGrow a b)
    (hc : is_complete a = true) : is_complete b = true := by
  simp only [is_complete, Bool.or_eq_true, Bool.and_eq_true, List.all_eq_true,
    decide_eq_true_eq] at hc ⊢
  rcases hc with ⟨⟨hcrit, hopt⟩, hq⟩ | ⟨ht, hcrit⟩
  · left
    refine ⟨⟨fun i hi => ?_, fun i hi => ?_⟩, ?_⟩
    · exact containsStr_iff.mpr (h.collected (containsStr_iff.mp (hcrit i hi)))
    · rcases hopt i hi with hco | hsk
      · exact Or.inl (containsStr_iff.mpr (h.collected (containsStr_iff.mp hco)))
      · exact Or.inr (containsStr_iff.mpr (h.skipped (containsStr_iff.mp hsk)))
    · have hga := h.asked
      rw [h.maxq]
      omega
  · right
    constructor
    · have hgt := h.turn
      rw [h.maxturns]
      omega
    · exact fun i hi => containsStr_iff.mpr (h.collected (containsStr_iff.mp (hcrit i hi)))

theorem mark_collected_grow (st : ConversationState) (i : String) :
    StGrow st (mark_collected st i) :=
  ⟨subset_insertStr _ _, fun _ h => h, le_refl _, le_refl _, rfl, rfl⟩

theorem mark_skipped_grow (st : ConversationState) (i : String) :
    StGrow st (mark_skipped st i) := by
  unfold mark_skipped
  split
  · exact ⟨fun _ h => h, subset_insertStr _ _, le_refl _, le_refl _, rfl, rfl⟩
  · exact stGrow_refl st

theorem msqa_grow (st : ConversationState) : StGrow st (mark_symptom_question_asked st) :=
  ⟨fun _ h => h, fun _ h => h, Nat.le_succ _, le_refl _, rfl, rfl⟩

theorem disjoint_mark_collected {st : ConversationState} {i : String}
    (hd : ∀ x, x ∈ st.collected → x ∉ st.skipped) (hi : i ∉ st.skipped) :
    ∀ x, x ∈ (mark_collected st i).collected → x ∉ (mark_collected st i).skipped := by
  intro x hx
  simp only [mark_collected] at hx ⊢
  rcases mem_insertStr.mp hx with hx2 | rfl
  · exact hd x hx2
  · exact hi

theorem disjoint_mark_skipped {st : ConversationState} {i : String}
    (hd : ∀ x, x ∈ st.collected → x ∉ st.skipped) (hi : i ∉ st.collected) :
    ∀ x, x ∈ (mark_skipped st i).collected → x ∉ (mark_skipped st i).skipped := by
  intro x hx
  unfold mark_skipped
  unfold mark_skipped at hx
  split at hx <;> split
  · intro hsk
    rcases mem_insertStr.mp hsk with hsk2 | rfl
    · exact hd x hx hsk2
    · exact hi hx
  · simp_all
  · simp_all
  · exact hd x hx

theorem skippedsub_mark_collected {st : ConversationState} {i : String}
    (hs : ∀ x ∈ st.skipped, x ∈ OPTIONAL_INFO) :
    ∀ x ∈ (mark_collected st i).skipped, x ∈ OPTIONAL_INFO := hs

theorem skippedsub_mark_skipped {st : ConversationState} {i : String}
    (hs : ∀ x ∈ st.skipped, x ∈ OPTIONAL_INFO) :
    ∀ x ∈ (mark_skipped st i).skipped, x ∈ OPTIONAL_INFO := by
  intro x hx
  unfold mark_skipped at hx
  split at hx
  case isTrue h =>
    rcases mem_insertStr.mp hx with hx2 | rfl
    · exact hs x hx2
    · exact containsStr_iff.mp h
  case isFalse => exact hs x hx

theorem mem_mark_collected {st : ConversationState} {i x : String} :
    x ∈ (mark_collected st i).collected ↔ x ∈ st.collected ∨ x = i := mem_insertStr

theorem collect_mark_skipped (st : ConversationState) (i : String) :
    (mark_skipped st i).collected = st.collected := by
  unfold mark_skipped
  split <;> rfl

theorem counters_mark_collected (st : ConversationState) (i : String) :
    (mark_collected st i).symptom_specific_questions_asked =
        st.symptom_specific_questions_asked ∧
      (mark_collected st i).max_symptom_questions = st.max_symptom_questions ∧
      (mark_collected st i).turn_count = st.turn_count ∧
      (mark_collected st i).max_turns = st.max_turns ∧
      (mark_collected st i).skipped = st.skipped :=
  ⟨rfl, rfl, rfl, rfl, rfl⟩

theorem counters_mark_skipped (st : ConversationState) (i : String) :
    (mark_skipped st i).symptom_specific_questions_asked =
        st.symptom_specific_questions_asked ∧
      (mark_skipped st i).max_symptom_questions = st.max_symptom_questions ∧
      (mark_skipped st i).turn_count = st.turn_count ∧
      (mark_skipped st i).max_turns = st.max_turns ∧
      (mark_skipped st i).collected = st.collected := by
  unfold mark_skipped
  split <;> exact ⟨rfl, rfl, rfl, rfl, rfl⟩

/-- Structural facts about the symptom-merging stage: the state is unchanged
or gains exactly `primary_symptoms` (in which case the symptom list is
non-empty), the non-symptom patient fields are untouched, and a non-empty
symptom list stays non-empty. -/
theorem parse_symptom_stage_facts (text : String) (p : PatientProfile)
    (st : ConversationState) :
    ((parse_symptom_stage text p st).2 = st ∨
      ((parse_symptom_stage text p st).2 = mark_collected st "primary_symptoms" ∧
        (parse_symptom_stage text p st).1.symptoms ≠ [])) ∧
    ((parse_symptom_stage text p st).1.age = p.age ∧
     (parse_symptom_stage text p st).1.gender = p.gender ∧
     (parse_symptom_stage text p st).1.duration = p.duration ∧
     (parse_symptom_stage text p st).1.severity = p.severity ∧
     (parse_symptom_stage text p st).1.medical_history = p.medical_history ∧
     (parse_symptom_stage text p st).1.is_pregnant = p.is_pregnant ∧
     (parse_symptom_stage text p st).1.name = p.name ∧
     (parse_symptom_stage text p st).1.medications = p.medications ∧
     (parse_symptom_stage text p st).1.recent_travel = p.recent_travel ∧
     (parse_symptom_stage text p st).1.dietary_changes = p.dietary_changes ∧
     (parse_symptom_stage text p st).1.fever = p.fever) ∧
    (p.symptoms ≠ [] → (parse_symptom_stage text p st).1.symptoms ≠ []) := by
  simp only [parse_symptom_stage]
  split
  case isTrue => exact ⟨Or.inl rfl, ⟨rfl, rfl, rfl, rfl, rfl, rfl, rfl, rfl, rfl, rfl, rfl⟩,
    fun h => h⟩
  case isFalse h =>
    have hkeep : ∀ x ∈ p.symptoms,
        x ∈ dedupFirst
          (p.symptoms ++ List.filter (fun s => !p.symptoms.contains s) (extract text)) :=
      fun x hx => mem_dedupFirst.mpr (List.mem_append.mpr (Or.inl hx))
    have hne : p.symptoms ≠ [] →
        dedupFirst (p.symptoms ++ List.filter (fun s => !p.symptoms.contains s) (extract text))
          ≠ [] := by
      intro hp
      obtain ⟨y, hy⟩ := List.exists_mem_of_ne_nil _ hp
      exact List.ne_nil_of_mem (hkeep y hy)
    split
    case isTrue h2 =>
      exact ⟨Or.inl rfl, ⟨rfl, rfl, rfl, rfl, rfl, rfl, rfl, rfl, rfl, rfl, rfl⟩, hne⟩
    case isFalse h2 =>
      have hne2 : dedupFirst
          (p.symptoms ++ List.filter (fun s => !p.symptoms.contains s) (extract text)) ≠ [] := by
        intro hc
        rw [hc] at h2
        exact h2 rfl
      exact ⟨Or.inr ⟨rfl, hne2⟩, ⟨rfl, rfl, rfl, rfl, rfl, rfl, rfl, rfl, rfl, rfl, rfl⟩,
        fun _ => hne2⟩

theorem parse_symptom_stage_grow (text : String) (p : PatientProfile)
    (st : ConversationState) : StGrow st (parse_symptom_stage text p st).2 := by
  rcases (parse_symptom_stage_facts text p st).1 with h | ⟨h, _⟩
  · rw [h]; exact stGrow_refl st
  · rw [h]; exact mark_collected_grow st _

theorem parse_pregnancy_block_state (text : String) (is_skip : Bool)
    (p : PatientProfile) (st : ConversationState) :
    (parse_pregnancy_block text is_skip p st).2 = st := by
  unfold parse_pregnancy_block
  split
  · split
    · rfl
    · split <;> rfl
  · rfl

theorem parse_history_block_state (text tl : String) (is_skip : Bool)
    (cq : Option String) (p : PatientProfile) (st : ConversationState) :
    (parse_history_block text tl is_skip cq p st).2 = st ∨
    (parse_history_block text tl is_skip cq p st).2 = mark_collected st "medical_history" := by
  unfold parse_history_block
  split
  · split
    · split
      · exact Or.inr rfl
      · exact Or.inr rfl
    · exact Or.inl rfl
  · exact Or.inl (parse_pregnancy_block_state text is_skip p st)

/-- Every branch of `parse_response` leaves the symptom-stage state unchanged
or applies exactly one `mark_collected` / `mark_skipped` to it. -/
theorem parse_response_state_cases (text : String) (p : PatientProfile)
    (st : ConversationState) :
    (parse_response text p st).2 = (parse_symptom_stage text p st).2 ∨
    ∃ i, (parse_response text p st).2 = mark_collected (parse_symptom_stage text p st).2 i ∨
         (parse_response text p st).2 = mark_skipped (parse_symptom_stage text p st).2 i := by
  rcases hpr : parse_response text p st with ⟨p2, st2⟩
  unfold parse_response at hpr
  dsimp only at hpr
  set TL := stripStr (toLowerStr text) with hTL
  set PS := parse_symptom_stage text p st with hPS
  set MISS := get_missing_info PS.2 with hMISS
  split at hpr
  · cases hpr; exact Or.inr ⟨"age", Or.inr rfl⟩
  split at hpr
  · cases hpr; exact Or.inr ⟨"age", Or.inl rfl⟩
  split at hpr
  · cases hpr; exact Or.inr ⟨"gender", Or.inr rfl⟩
  split at hpr
  · cases hpr; exact Or.inr ⟨"gender", Or.inl rfl⟩
  split at hpr
  · cases hpr; exact Or.inr ⟨"symptom_duration", Or.inl rfl⟩
  split at hpr
  · cases hpr; exact Or.inr ⟨"symptom_severity", Or.inl rfl⟩
  · have h2 := congrArg Prod.snd hpr
    dsimp only at h2
    rw [← h2]
    rcases parse_history_block_state text TL (skip_phrases.any (containsSub TL)) MISS.head?
        PS.1 PS.2 with h | h
    · exact Or.inl h
    · exact Or.inr ⟨"medical_history", Or.inl h⟩

theorem not_mem_of_contains_false {l : List String} {x : String}
    (h : l.contains x = false) : x ∉ l := by
  intro hm
  rw [containsStr_iff.mpr hm] at h
  exact absurd h (by decide)

/-- When the first missing item is `symptom_duration`, `primary_symptoms` has
already been handled (it precedes `symptom_duration` in the priority order). -/
theorem head_missing_duration {st : ConversationState}
    (h : (get_missing_info st).head? = some "symptom_duration") :
    "primary_symptoms" ∈ st.collected ∨ "primary_symptoms" ∈ st.skipped := by
  by_contra hc
  push_neg at hc
  obtain ⟨h1, h2⟩ := hc
  have hc1 : st.collected.contains "primary_symptoms" = false := by
    cases hcc : st.collected.contains "primary_symptoms"
    · rfl
    · exact absurd (containsStr_iff.mp hcc) h1
  have hc2 : st.skipped.contains "primary_symptoms" = false := by
    cases hcc : st.skipped.contains "primary_symptoms"
    · rfl
    · exact absurd (containsStr_iff.mp hcc) h2
  unfold get_missing_info REQUIRED_INFO at h
  simp only [List.filter_cons, List.filter_nil, hc1, hc2] at h
  split_ifs at h <;> simp_all

theorem parse_pregnancy_block_patient (text : String) (is_skip : Bool)
    (p : PatientProfile) (st : ConversationState) :
    (parse_pregnancy_block text is_skip p st).1.name = p.name ∧
    (parse_pregnancy_block text is_skip p st).1.age = p.age ∧
    (parse_pregnancy_block text is_skip p st).1.gender = p.gender ∧
    (parse_pregnancy_block text is_skip p st).1.symptoms = p.symptoms ∧
    (parse_pregnancy_block text is_skip p st).1.duration = p.duration ∧
    (parse_pregnancy_block text is_skip p st).1.severity = p.severity ∧
    (parse_pregnancy_block text is_skip p st).1.medications = p.medications ∧
    (parse_pregnancy_block text is_skip p st).1.medical_history = p.medical_history ∧
    (parse_pregnancy_block text is_skip p st).1.recent_travel = p.recent_travel ∧
    (parse_pregnancy_block text is_skip p st).1.dietary_changes = p.dietary_changes ∧
    (parse_pregnancy_block text is_skip p st).1.fever = p.fever := by
  unfold parse_pregnancy_block
  split
  · split
    · exact ⟨rfl, rfl, rfl, rfl, rfl, rfl, rfl, rfl, rfl, rfl, rfl⟩
    · split <;> exact ⟨rfl, rfl, rfl, rfl, rfl, rfl, rfl, rfl, rfl, rfl, rfl⟩
  · exact ⟨rfl, rfl, rfl, rfl, rfl, rfl, rfl, rfl, rfl, rfl, rfl⟩

theorem parse_history_block_patient (text tl : String) (is_skip : Bool)
    (cq : Option String) (p : PatientProfile) (st : ConversationState) :
    (parse_history_block text tl is_skip cq p st).1.name = p.name ∧
    (parse_history_block text tl is_skip cq p st).1.age = p.age ∧
    (parse_history_block text tl is_skip cq p st).1.gender = p.gender ∧
    (parse_history_block text tl is_skip cq p st).1.symptoms = p.symptoms ∧
    (parse_history_block text tl is_skip cq p st).1.duration = p.duration ∧
    (parse_history_block text tl is_skip cq p st).1.severity = p.severity ∧
    (parse_history_block text tl is_skip cq p st).1.medications = p.medications ∧
    (parse_history_block text tl is_skip cq p st).1.recent_travel = p.recent_travel ∧
    (parse_history_block text tl is_skip cq p st).1.dietary_changes = p.dietary_changes ∧
    (parse_history_block text tl is_skip cq p st).1.fever = p.fever := by
  unfold parse_history_block
  split
  · split
    · split <;> exact ⟨rfl, rfl, rfl, rfl, rfl, rfl, rfl, rfl, rfl, rfl⟩
    · exact ⟨rfl, rfl, rfl, rfl, rfl, rfl, rfl, rfl, rfl, rfl⟩
  · obtain ⟨f1, f2, f3, f4, f5, f6, f7, _, f9, f10, f11⟩ :=
      parse_pregnancy_block_patient text is_skip p st
    exact ⟨f1, f2, f3, f4, f5, f6, f7, f9, f10, f11⟩

theorem parse_response_grow (text : String) (p : PatientProfile) (st : ConversationState) :
    StGrow st (parse_response text p st).2 := by
  have h1 := parse_symptom_stage_grow text p st
  rcases parse_response_state_cases text p st with h | ⟨i, h | h⟩
  · rw [h]; exact h1
  · rw [h]; exact stGrow_trans h1 (mark_collected_grow _ _)
  · rw [h]; exact stGrow_trans h1 (mark_skipped_grow _ _)

theorem parse_response_counters (text : String) (p : PatientProfile)
    (st : ConversationState) :
    (parse_response text p st).2.symptom_specific_questions_asked =
        st.symptom_specific_questions_asked ∧
      (parse_response text p st).2.max_symptom_questions = st.max_symptom_questions ∧
      (parse_response text p st).2.turn_count = st.turn_count ∧
      (parse_response text p st).2.max_turns = st.max_turns := by
  have hstage : (parse_symptom_stage text p st).2.symptom_specific_questions_asked =
        st.symptom_specific_questions_asked ∧
      (parse_symptom_stage text p st).2.max_symptom_questions = st.max_symptom_questions ∧
      (parse_symptom_stage text p st).2.turn_count = st.turn_count ∧
      (parse_symptom_stage text p st).2.max_turns = st.max_turns := by
    rcases (parse_symptom_stage_facts text p st).1 with h | ⟨h, _⟩ <;>
      rw [h] <;> exact ⟨rfl, rfl, rfl, rfl⟩
  rcases parse_response_state_cases text p st with h | ⟨i, h | h⟩
  · rw [h]; exact hstage
  · rw [h]
    obtain ⟨c1, c2, c3, c4, _⟩ := counters_mark_collected (parse_symptom_stage text p st).2 i
    exact ⟨c1.trans hstage.1, c2.trans hstage.2.1, c3.trans hstage.2.2.1,
      c4.trans hstage.2.2.2⟩
  · rw [h]
    obtain ⟨c1, c2, c3, c4, _⟩ := counters_mark_skipped (parse_symptom_stage text p st).2 i
    exact ⟨c1.trans hstage.1, c2.trans hstage.2.1, c3.trans hstage.2.2.1,
      c4.trans hstage.2.2.2⟩

/-- `parse_response` preserves the session invariants: collected/skipped stay
disjoint, `skipped` stays inside the optional items, a collected
`primary_symptoms` witnesses a non-empty symptom list, and a collected
duration implies collected symptoms. -/
theorem parse_response_inv (text : String) (p : PatientProfile) (st : ConversationState)
    (hd : ∀ x, x ∈ st.collected → x ∉ st.skipped)
    (hs : ∀ x ∈ st.skipped, x ∈ OPTIONAL_INFO)
    (hsym : "primary_symptoms" ∈ st.collected → p.symptoms ≠ [])
    (hdur : "symptom_duration" ∈ st.collected → "primary_symptoms" ∈ st.collected) :
    (∀ x, x ∈ (parse_response text p st).2.collected → x ∉ (parse_response text p st).2.skipped) ∧
    (∀ x ∈ (parse_response text p st).2.skipped, x ∈ OPTIONAL_INFO) ∧
    ("primary_symptoms" ∈ (parse_response text p st).2.collected →
      (parse_response text p st).1.symptoms ≠ []) ∧
    ("symptom_duration" ∈ (parse_response text p st).2.collected →
      "primary_symptoms" ∈ (parse_response text p st).2.collected) := by
  obtain ⟨hshape, _, hne⟩ := parse_symptom_stage_facts text p st
  have hd1 : ∀ x, x ∈ (parse_symptom_stage text p st).2.collected →
      x ∉ (parse_symptom_stage text p st).2.skipped := by
    rcases hshape with h | ⟨h, _⟩
    · rw [h]; exact hd
    · rw [h]
      refine disjoint_mark_collected hd (fun hc => ?_)
      have := hs _ hc
      simp [OPTIONAL_INFO] at this
  have hs1 : ∀ x ∈ (parse_symptom_stage text p st).2.skipped, x ∈ OPTIONAL_INFO := by
    rcases hshape with h | ⟨h, _⟩
    · rw [h]; exact hs
    · rw [h]; exact skippedsub_mark_collected hs
  have hsym1 : "primary_symptoms" ∈ (parse_symptom_stage text p st).2.collected →
      (parse_symptom_stage text p st).1.symptoms ≠ [] := by
    rcases hshape with h | ⟨h, hnn⟩
    · rw [h]; exact fun hm => hne (hsym hm)
    · exact fun _ => hnn
  have hdur1 : "symptom_duration" ∈ (parse_symptom_stage text p st).2.collected →
      "primary_symptoms" ∈ (parse_symptom_stage text p st).2.collected := by
    rcases hshape with h | ⟨h, _⟩
    · rw [h]; exact hdur
    · rw [h]
      intro hm
      rcases mem_mark_collected.mp hm with hm2 | hm2
      · exact mem_mark_collected.mpr (Or.inl (hdur hm2))
      · exact absurd hm2 (by decide)
  rcases hpr : parse_response text p st with ⟨p2, st2⟩
  unfold parse_response at hpr
  dsimp only at hpr
  set TL := stripStr (toLowerStr text) with hTL
  set PS := parse_symptom_stage text p st with hPS
  set MISS := get_missing_info PS.2 with hMISS
  split at hpr
  case isTrue hcnd =>
    cases hpr
    simp only [Bool.and_eq_true, Bool.not_eq_true'] at hcnd
    have hna : "age" ∉ PS.2.collected := not_mem_of_contains_false hcnd.1.1.1
    refine ⟨disjoint_mark_skipped hd1 hna, skippedsub_mark_skipped hs1, ?_, ?_⟩
    · rw [collect_mark_skipped]; exact hsym1
    · rw [collect_mark_skipped]; exact hdur1
  split at hpr
  case isTrue hcnd =>
    cases hpr
    simp only [Bool.and_eq_true, Bool.not_eq_true'] at hcnd
    have hna : "age" ∉ PS.2.skipped := not_mem_of_contains_false hcnd.1.1.2
    refine ⟨disjoint_mark_collected hd1 hna, skippedsub_mark_collected hs1, ?_, ?_⟩
    · intro hm
      rcases mem_mark_collected.mp hm with hm2 | hm2
      · exact hsym1 hm2
      · exact absurd hm2 (by decide)
    · intro hm
      rcases mem_mark_collected.mp hm with hm2 | hm2
      · exact mem_mark_collected.mpr (Or.inl (hdur1 hm2))
      · exact absurd hm2 (by decide)
  split at hpr
  case isTrue hcnd =>
    cases hpr
    simp only [Bool.and_eq_true, Bool.not_eq_true'] at hcnd
    have hna : "gender" ∉ PS.2.collected := not_mem_of_contains_false hcnd.1.1.1
    refine ⟨disjoint_mark_skipped hd1 hna, skippedsub_mark_skipped hs1, ?_, ?_⟩
    · rw [collect_mark_skipped]; exact hsym1
    · rw [collect_mark_skipped]; exact hdur1
  split at hpr
  case isTrue hcnd =>
    cases hpr
    simp only [Bool.and_eq_true, Bool.not_eq_true'] at hcnd
    have hna : "gender" ∉ PS.2.skipped := not_mem_of_contains_false hcnd.1.1.2
    refine ⟨disjoint_mark_collected hd1 hna, skippedsub_mark_collected hs1, ?_, ?_⟩
    · intro hm
      rcases mem_mark_collected.mp hm with hm2 | hm2
      · exact hsym1 hm2
      · exact absurd hm2 (by decide)
    · intro hm
      rcases mem_mark_collected.mp hm with hm2 | hm2
      · exact mem_mark_collected.mpr (Or.inl (hdur1 hm2))
      · exact absurd hm2 (by decide)
  split at hpr
  case isTrue hcnd =>
    cases hpr
    simp only [Bool.and_eq_true] at hcnd
    have hhead : MISS.head? = some "symptom_duration" := by
      have := hcnd.1.2
      exact beq_iff_eq.mp this
    have hprim : "primary_symptoms" ∈ PS.2.collected := by
      rcases head_missing_duration hhead with hm | hm
      · exact hm
      · have := hs1 _ hm
        simp [OPTIONAL_INFO] at this
    have hnd : "symptom_duration" ∉ PS.2.skipped := by
      intro hc
      have := hs1 _ hc
      simp [OPTIONAL_INFO] at this
    refine ⟨disjoint_mark_collected hd1 hnd, skippedsub_mark_collected hs1, ?_, ?_⟩
    · intro hm
      rcases mem_mark_collected.mp hm with hm2 | hm2
      · exact hsym1 hm2
      · exact absurd hm2 (by decide)
    · intro _
      exact mem_mark_collected.mpr (Or.inl hprim)
  split at hpr
  case isTrue hcnd =>
    cases hpr
    have hnsv : "symptom_severity" ∉ PS.2.skipped := by
      intro hc
      have := hs1 _ hc
      simp [OPTIONAL_INFO] at this
    refine ⟨disjoint_mark_collected hd1 hnsv, skippedsub_mark_collected hs1, ?_, ?_⟩
    · intro hm
      rcases mem_mark_collected.mp hm with hm2 | hm2
      · exact hsym1 hm2
      · exact absurd hm2 (by decide)
    · intro hm
      rcases mem_mark_collected.mp hm with hm2 | hm2
      · exact mem_mark_collected.mpr (Or.inl (hdur1 hm2))
      · exact absurd hm2 (by decide)
  · -- medical-history block followed by the pregnancy block
    have hsymeq :=
      (parse_history_block_patient text TL (skip_phrases.any (containsSub TL)) MISS.head?
        PS.1 PS.2).2.2.2.1
    have hstate :=
      parse_history_block_state text TL (skip_phrases.any (containsSub TL)) MISS.head?
        PS.1 PS.2
    have hp2 := congrArg Prod.fst hpr
    have hs2 := congrArg Prod.snd hpr
    dsimp only at hp2 hs2
    rw [hp2] at hsymeq
    rw [hs2] at hstate
    have hnmh : "medical_history" ∉ PS.2.skipped := by
      intro hc
      have := hs1 _ hc
      simp [OPTIONAL_INFO] at this
    rcases hstate with h | h <;> rw [h]
    · exact ⟨hd1, hs1, fun hm => hsymeq ▸ hsym1 hm, hdur1⟩
    · refine ⟨disjoint_mark_collected hd1 hnmh, skippedsub_mark_collected hs1, ?_, ?_⟩
      · intro hm
        rcases mem_mark_collected.mp hm with hm2 | hm2
        · exact hsymeq ▸ hsym1 hm2
        · exact absurd hm2 (by decide)
      · intro hm
        rcases mem_mark_collected.mp hm with hm2 | hm2
        · exact mem_mark_collected.mpr (Or.inl (hdur1 hm2))
        · exact absurd hm2 (by decide)

/-- What `generate_question` can do to the state: it never touches
collected/skipped/turn or the limits, it advances the adaptive counter only
below the limit, and it never resets the pregnancy flag. -/
theorem symptom_question_phase_effects (env : Env) (st : ConversationState)
    (p : PatientProfile) (last : String)
    (hca : can_ask_symptom_question st = true) :
    (symptom_question_phase env st p last).1.collected = st.collected ∧
    (symptom_question_phase env st p last).1.skipped = st.skipped ∧
    (symptom_question_phase env st p last).1.turn_count = st.turn_count ∧
    (symptom_question_phase env st p last).1.max_symptom_questions = st.max_symptom_questions ∧
    (symptom_question_phase env st p last).1.max_turns = st.max_turns ∧
    st.symptom_specific_questions_asked ≤
      (symptom_question_phase env st p last).1.symptom_specific_questions_asked ∧
    (symptom_question_phase env st p last).1.symptom_specific_questions_asked ≤
      st.max_symptom_questions ∧
    (st.pregnancy_question_asked = true →
      (symptom_question_phase env st p last).1.pregnancy_question_asked = true) := by
  simp only [can_ask_symptom_question, decide_eq_true_eq] at hca
  rcases hg : symptom_question_phase env st p last with ⟨st2, q⟩
  unfold symptom_question_phase at hg
  dsimp only at hg
  split at hg
  · split at hg <;> cases hg <;>
      exact ⟨rfl, rfl, rfl, rfl, rfl, Nat.le_succ _, hca, fun h => h⟩
  · split at hg <;> cases hg <;>
      exact ⟨rfl, rfl, rfl, rfl, rfl, le_refl _, le_of_lt hca, fun h => h⟩

theorem generate_question_effects (env : Env) (st : ConversationState) (p : PatientProfile)
    (last : String) :
    (generate_question env st p last).1.collected = st.collected ∧
    (generate_question env st p last).1.skipped = st.skipped ∧
    (generate_question env st p last).1.turn_count = st.turn_count ∧
    (generate_question env st p last).1.max_symptom_questions = st.max_symptom_questions ∧
    (generate_question env st p last).1.max_turns = st.max_turns ∧
    st.symptom_specific_questions_asked ≤
      (generate_question env st p last).1.symptom_specific_questions_asked ∧
    (generate_question env st p last).1.symptom_specific_questions_asked ≤
      max st.symptom_specific_questions_asked st.max_symptom_questions ∧
    (st.pregnancy_question_asked = true →
      (generate_question env st p last).1.pregnancy_question_asked = true) := by
  rcases hg : generate_question env st p last with ⟨st2, q⟩
  unfold generate_question at hg
  dsimp only at hg
  set MISS := get_missing_info st with hMISS
  split at hg
  · cases hg; exact ⟨rfl, rfl, rfl, rfl, rfl, le_refl _, le_max_left _ _, fun h => h⟩
  split at hg
  · cases hg; exact ⟨rfl, rfl, rfl, rfl, rfl, le_refl _, le_max_left _ _, fun h => h⟩
  split at hg
  · cases hg; exact ⟨rfl, rfl, rfl, rfl, rfl, le_refl _, le_max_left _ _, fun h => h⟩
  split at hg
  · cases hg; exact ⟨rfl, rfl, rfl, rfl, rfl, le_refl _, le_max_left _ _, fun h => h⟩
  split at hg
  · cases hg; exact ⟨rfl, rfl, rfl, rfl, rfl, le_refl _, le_max_left _ _, fun h => h⟩
  split at hg
  · cases hg; exact ⟨rfl, rfl, rfl, rfl, rfl, le_refl _, le_max_left _ _, fun h => h⟩
  split at hg
  · cases hg; exact ⟨rfl, rfl, rfl, rfl, rfl, le_refl _, le_max_left _ _, fun _ => rfl⟩
  split at hg
  case isTrue hcnd =>
    simp only [Bool.and_eq_true] at hcnd
    have heff := symptom_question_phase_effects env st p last hcnd.1.2
    rw [hg] at heff
    obtain ⟨e1, e2, e3, e4, e5, e6, e7, e8⟩ := heff
    exact ⟨e1, e2, e3, e4, e5, e6, le_trans e7 (le_max_right _ _), e8⟩
  · cases hg; exact ⟨rfl, rfl, rfl, rfl, rfl, le_refl _, le_max_left _ _, fun h => h⟩

theorem finalize_session (env : Env) (s : Session) :
    (finalize_diagnosis env s).session.state = s.state ∧
    (finalize_diagnosis env s).session.patient = s.patient ∧
    (finalize_diagnosis env s).is_final = true := by
  unfold finalize_diagnosis
  split <;> exact ⟨rfl, rfl, rfl⟩

/-- The session invariant: collected and skipped are disjoint, skipped only
holds optional items, the adaptive counter respects its limit (3), a
collected `primary_symptoms` witnesses symptoms, and a collected duration
implies collected symptoms. -/
def StPInv (p : PatientProfile) (st : ConversationState) : Prop :=
  (∀ x, x ∈ st.collected → x ∉ st.skipped) ∧
  (∀ x ∈ st.skipped, x ∈ OPTIONAL_INFO) ∧
  st.symptom_specific_questions_asked ≤ st.max_symptom_questions ∧
  st.max_symptom_questions = 3 ∧
  ("primary_symptoms" ∈ st.collected → p.symptoms ≠ []) ∧
  ("symptom_duration" ∈ st.collected → "primary_symptoms" ∈ st.collected)

def SessionInv (s : Session) : Prop := StPInv s.patient s.state

theorem parse_StPInv {text : String} {p : PatientProfile} {st : ConversationState}
    (h : StPInv p st) :
    StPInv (parse_response text p st).1 (parse_response text p st).2 := by
  obtain ⟨hd, hs, hq, hm3, hsym, hdur⟩ := h
  obtain ⟨d1, s1, y1, u1⟩ := parse_response_inv text p st hd hs hsym hdur
  obtain ⟨c1, c2, _, _⟩ := parse_response_counters text p st
  exact ⟨d1, s1, by rw [c1, c2]; exact hq, by rw [c2]; exact hm3, y1, u1⟩

theorem genq_StPInv {env : Env} {st : ConversationState} {p : PatientProfile} {last : String}
    (h : StPInv p st) : StPInv p (generate_question env st p last).1 := by
  obtain ⟨hd, hs, hq, hm3, hsym, hdur⟩ := h
  obtain ⟨e1, e2, _, e4, _, _, e7, _⟩ := generate_question_effects env st p last
  refine ⟨?_, ?_, ?_, ?_, ?_, ?_⟩
  · rw [e1, e2]; exact hd
  · rw [e2]; exact hs
  · rw [e4]
    calc (generate_question env st p last).1.symptom_specific_questions_asked
        ≤ max st.symptom_specific_questions_asked st.max_symptom_questions := e7
      _ = st.max_symptom_questions := max_eq_right hq
  · rw [e4]; exact hm3
  · rw [e1]; exact hsym
  · rw [e1]; exact hdur

theorem chat_parse_stage_inv {s : Session} (input : String) (h : SessionInv s) :
    SessionInv (chat_parse_stage s input) := by
  have hpp : StPInv (parse_response input s.patient s.state).1
      (parse_response input s.patient s.state).2 := parse_StPInv h
  unfold chat_parse_stage
  dsimp only
  split
  case isTrue hcnd =>
    simp only [Bool.and_eq_true, decide_eq_true_eq] at hcnd
    obtain ⟨hd, hs, _, hm3, hsym, hdur⟩ := hpp
    exact ⟨hd, hs, hcnd.1.2, hm3, hsym, hdur⟩
  case isFalse => exact hpp

theorem chat_question_stage_inv {s : Session} (env : Env) (input : String)
    (h : SessionInv s) : SessionInv (chat_question_stage env s input).session := by
  unfold chat_question_stage
  split
  · obtain ⟨e1, e2, _⟩ := finalize_session env s
    show StPInv (finalize_diagnosis env s).session.patient (finalize_diagnosis env s).session.state
    rw [e1, e2]
    exact h
  · rcases hg : generate_question env s.state s.patient input with ⟨stq, q⟩
    have h1 : StPInv s.patient stq := by
      have := @genq_StPInv env s.state s.patient input h
      rwa [hg] at this
    cases q
    case some q0 => exact h1
    case none =>
      dsimp only
      split
      · obtain ⟨e1, e2, _⟩ := finalize_session env { s with state := stq }
        show StPInv _ _
        rw [e1, e2]
        exact h1
      · rcases hg2 : generate_question env stq s.patient input with ⟨stq2, q2⟩
        have h2 : StPInv s.patient stq2 := by
          have := @genq_StPInv env stq s.patient input h1
          rwa [hg2] at this
        cases q2
        case some q0 => exact h2
        case none =>
          obtain ⟨e1, e2, _⟩ := finalize_session env { s with state := stq2 }
          show StPInv _ _
          rw [e1, e2]
          exact h2

theorem chat_preserves_inv {s : Session} (env : Env) (input : String) (h : SessionInv s) :
    SessionInv (chat env s input).session := by
  unfold chat
  dsimp only
  split
  · split
    · exact h
    · exact chat_question_stage_inv env input (chat_parse_stage_inv input h)
  · exact chat_question_stage_inv env input (chat_parse_stage_inv input h)

theorem reachable_inv {s : Session} (h : Reachable s) : SessionInv s := by
  induction h with
  | init =>
    refine ⟨?_, ?_, ?_, rfl, ?_, ?_⟩ <;> simp [initialSession, ConversationState.collected]
  | step env input hr ih => exact chat_preserves_inv env _ ih

theorem genq_grow (env : Env) (st : ConversationState) (p : PatientProfile) (last : String) :
    StGrow st (generate_question env st p last).1 := by
  obtain ⟨e1, e2, e3, e4, e5, e6, _, _⟩ := generate_question_effects env st p last
  exact ⟨fun x hx => e1.symm ▸ hx, fun x hx => e2.symm ▸ hx, e6, le_of_eq e3.symm, e4, e5⟩

theorem chat_parse_stage_grow (s : Session) (input : String) :
    StGrow s.state (chat_parse_stage s input).state := by
  unfold chat_parse_stage
  dsimp only
  split
  · exact stGrow_trans (parse_response_grow input s.patient s.state) (msqa_grow _)
  · exact parse_response_grow input s.patient s.state

theorem chat_question_stage_grow (env : Env) (s : Session) (input : String) :
    StGrow s.state (chat_question_stage env s input).session.state := by
  unfold chat_question_stage
  split
  · rw [(finalize_session env s).1]
    exact stGrow_refl _
  · rcases hg : generate_question env s.state s.patient input with ⟨stq, q⟩
    have g1 : StGrow s.state stq := by
      have := genq_grow env s.state s.patient input
      rwa [hg] at this
    cases q
    case some q0 => exact g1
    case none =>
      dsimp only
      split
      · rw [(finalize_session env _).1]
        exact g1
      · rcases hg2 : generate_question env stq s.patient input with ⟨stq2, q2⟩
        have g2 : StGrow stq stq2 := by
          have := genq_grow env stq s.patient input
          rwa [hg2] at this
        cases q2
        case some q0 => exact stGrow_trans g1 g2
        case none =>
          rw [(finalize_session env _).1]
          exact stGrow_trans g1 g2

theorem chat_grow (env : Env) (s : Session) (input : String) :
    StGrow s.state (chat env s input).session.state := by
  unfold chat
  dsimp only
  have hpre : StGrow s.state { s.state with turn_count := s.state.turn_count + 1 } :=
    ⟨fun _ h => h, fun _ h => h, le_refl _, Nat.le_succ _, rfl, rfl⟩
  have hflag : StGrow { s.state with turn_count := s.state.turn_count + 1 }
      { { s.state with turn_count := s.state.turn_count + 1 } with
        is_first_user_message := false } :=
    ⟨fun _ h => h, fun _ h => h, le_refl _, le_refl _, rfl, rfl⟩
  split
  · split
    · exact stGrow_trans hpre hflag
    · refine stGrow_trans ?_ (chat_question_stage_grow env _ input)
      refine stGrow_trans ?_ (chat_parse_stage_grow _ input)
      exact stGrow_trans hpre hflag
  · refine stGrow_trans ?_ (chat_question_stage_grow env _ input)
    refine stGrow_trans ?_ (chat_parse_stage_grow _ input)
    exact hpre

theorem contains_false_of_not_mem {l : List String} {x : String} (h : x ∉ l) :
    l.contains x = false := by
  cases hc : l.contains x
  · rfl
  · exact absurd (containsStr_iff.mp hc) h

theorem not_missing_mem {st : ConversationState} {i : String}
    (hi : i ∈ REQUIRED_INFO) (h : i ∉ get_missing_info st) :
    i ∈ st.collected ∨ i ∈ st.skipped := by
  by_contra hc
  push_neg at hc
  refine h (List.mem_filter.mpr ⟨hi, ?_⟩)
  simp only [Bool.and_eq_true, Bool.not_eq_true']
  exact ⟨contains_false_of_not_mem hc.1, contains_false_of_not_mem hc.2⟩

theorem mem_missing_not_collected {st : ConversationState} {i : String}
    (h : i ∈ get_missing_info st) : i ∉ st.collected := by
  have := (List.mem_filter.mp h).2
  simp only [Bool.and_eq_true, Bool.not_eq_true'] at this
  exact not_mem_of_contains_false this.1

/-- When nothing is missing and skipped items are optional, the first
disjunct of `is_complete` only needs the adaptive-question count. -/
theorem is_complete_intro {st : ConversationState}
    (hmiss : get_missing_info st = [])
    (hs : ∀ x ∈ st.skipped, x ∈ OPTIONAL_INFO)
    (hq : st.symptom_specific_questions_asked ≥ st.max_symptom_questions) :
    is_complete st = true := by
  have hall : ∀ i ∈ REQUIRED_INFO, i ∈ st.collected ∨ i ∈ st.skipped := by
    intro i hi
    refine not_missing_mem hi ?_
    rw [hmiss]
    exact List.not_mem_nil i
  have hcrit : ∀ i ∈ CRITICAL_INFO, st.collected.contains i = true := by
    intro i hi
    have hiR : i ∈ REQUIRED_INFO := by
      simp only [CRITICAL_INFO, List.mem_cons, List.not_mem_nil, or_false] at hi
      rcases hi with rfl | rfl | rfl | rfl <;> simp [REQUIRED_INFO]
    rcases hall i hiR with hco | hsk
    · exact containsStr_iff.mpr hco
    · have := hs i hsk
      simp only [CRITICAL_INFO, List.mem_cons, List.not_mem_nil, or_false] at hi
      rcases hi with rfl | rfl | rfl | rfl <;> simp [OPTIONAL_INFO] at this
  simp only [is_complete, Bool.or_eq_true, Bool.and_eq_true, List.all_eq_true,
    decide_eq_true_eq]
  left
  refine ⟨⟨fun i hi => hcrit i hi, fun i hi => ?_⟩, hq⟩
  rcases hall i (by
      simp only [OPTIONAL_INFO, List.mem_cons, List.not_mem_nil, or_false] at hi
      rcases hi with rfl | rfl <;> simp [REQUIRED_INFO]) with hco | hsk
  · exact Or.inl (containsStr_iff.mpr hco)
  · exact Or.inr (containsStr_iff.mpr hsk)

theorem missing_congr {a b : ConversationState} (hc : a.collected = b.collected)
    (hs : a.skipped = b.skipped) : get_missing_info a = get_missing_info b := by
  unfold get_missing_info
  rw [hc, hs]

theorem symptom_question_phase_none {env : Env} {st st2 : ConversationState}
    {p : PatientProfile} {last : String}
    (h : symptom_question_phase env st p last = (st2, none)) :
    st2.symptom_specific_questions_asked ≥ st2.max_symptom_questions ∧
    st2.collected = st.collected ∧ st2.skipped = st.skipped := by
  unfold symptom_question_phase at h
  dsimp only at h
  split at h
  case isTrue hca =>
    split at h
    · exact absurd (congrArg Prod.snd h) (by simp)
    case isFalse hca2 =>
      cases h
      simp only [can_ask_symptom_question, decide_eq_true_eq, not_lt] at hca2
      constructor
      · exact hca2
      · exact ⟨rfl, rfl⟩
  case isFalse hca =>
    split at h
    · exact absurd (congrArg Prod.snd h) (by simp)
    case isFalse hca2 =>
      cases h
      simp only [can_ask_symptom_question, decide_eq_true_eq, not_lt] at hca2
      constructor
      · exact hca2
      · exact ⟨rfl, rfl⟩

/-- When `generate_question` answers `none`, the (possibly advanced) state it
returns is complete — provided the session invariants hold. -/
theorem generate_question_none_complete (env : Env) (st : ConversationState)
    (p : PatientProfile) (last : String)
    (hs : ∀ x ∈ st.skipped, x ∈ OPTIONAL_INFO)
    (hsym : "primary_symptoms" ∈ st.collected → p.symptoms ≠ [])
    (hdur : "symptom_duration" ∈ st.collected → "primary_symptoms" ∈ st.collected)
    (hnone : (generate_question env st p last).2 = none) :
    is_complete (generate_question env st p last).1 = true := by
  rcases hg : generate_question env st p last with ⟨st2, q⟩
  rw [hg] at hnone
  dsimp only at hnone
  subst hnone
  unfold generate_question at hg
  dsimp only at hg
  set MISS := get_missing_info st with hMISS
  split at hg
  · exact absurd (congrArg Prod.snd hg) (by simp)
  split at hg
  · exact absurd (congrArg Prod.snd hg) (by simp)
  split at hg
  · exact absurd (congrArg Prod.snd hg) (by simp)
  split at hg
  · exact absurd (congrArg Prod.snd hg) (by simp)
  split at hg
  · exact absurd (congrArg Prod.snd hg) (by simp)
  split at hg
  · exact absurd (congrArg Prod.snd hg) (by simp)
  split at hg
  · exact absurd (congrArg Prod.snd hg) (by simp)
  case isFalse hna hng hnd hnsv hnmh hnpreg =>
    split at hg
    case isTrue hcnd =>
      simp only [Bool.and_eq_true] at hcnd
      obtain ⟨hq2, hcol, hskp⟩ := symptom_question_phase_none hg
      have hmiss2 : get_missing_info st2 = [] := by
        rw [missing_congr hcol hskp, ← hMISS]
        exact List.isEmpty_iff.mp hcnd.1.1
      refine is_complete_intro hmiss2 ?_ hq2
      rw [hskp]
      exact hs
    case isFalse hcnd =>
      cases hg
      by_cases hmiss : MISS = []
      · -- nothing missing: the phase-2 guard failed on its other conjuncts
        have hie : MISS.isEmpty = true := by rw [hmiss]; rfl
        by_cases hca : can_ask_symptom_question st = true
        · -- then the symptom list must be empty, contradicting the invariant
          have hpe : p.symptoms = [] := by
            cases hsy : p.symptoms
            · rfl
            · exfalso
              apply hcnd
              rw [hie, hca, hsy]
              rfl
          have hprim : "primary_symptoms" ∈ st.collected := by
            rcases not_missing_mem
                (show ("primary_symptoms" : String) ∈ REQUIRED_INFO by
                  simp [REQUIRED_INFO])
                (by rw [← hMISS, hmiss]; exact List.not_mem_nil _) with hco | hsk
            · exact hco
            · have := hs _ hsk
              simp [OPTIONAL_INFO] at this
          exact absurd (hsym hprim) (by simp [hpe])
        · have hq3 : st.symptom_specific_questions_asked ≥ st.max_symptom_questions := by
            simp only [can_ask_symptom_question, decide_eq_true_eq, not_lt] at hca
            exact hca
          exact is_complete_intro (by rw [hMISS] at hmiss; exact hmiss) hs hq3
      · -- something missing, but none of the five askable items: impossible
        exfalso
        have hnaF : MISS.contains "age" = false := by
          cases hb : MISS.contains "age"
          · rfl
          · exact absurd hb hna
        have hngF : MISS.contains "gender" = false := by
          cases hb : MISS.contains "gender"
          · rfl
          · exact absurd hb hng
        have hndF : MISS.contains "symptom_duration" = false := by
          cases hb : MISS.contains "symptom_duration"
          · rfl
          · exact absurd hb hnd
        have hnsvF : MISS.contains "symptom_severity" = false := by
          cases hb : MISS.contains "symptom_severity"
          · rfl
          · exact absurd hb hnsv
        have hnmhF : MISS.contains "medical_history" = false := by
          cases hb : MISS.contains "medical_history"
          · rfl
          · exact absurd hb hnmh
        obtain ⟨i, hi⟩ := List.exists_mem_of_ne_nil MISS hmiss
        have hiR : i ∈ REQUIRED_INFO := by
          rw [hMISS] at hi
          exact (List.mem_filter.mp hi).1
        have hine : ∀ j : String, MISS.contains j = false → i ≠ j := by
          intro j hj heq
          rw [heq] at hi
          rw [containsStr_iff.mpr hi] at hj
          cases hj
        have hip : i = "primary_symptoms" := by
          simp only [REQUIRED_INFO, List.mem_cons, List.not_mem_nil, or_false] at hiR
          rcases hiR with rfl | rfl | rfl | rfl | rfl | rfl
          · exact absurd rfl (hine _ hnaF)
          · exact absurd rfl (hine _ hngF)
          · rfl
          · exact absurd rfl (hine _ hndF)
          · exact absurd rfl (hine _ hnsvF)
          · exact absurd rfl (hine _ hnmhF)
        subst hip
        have hdmem : "symptom_duration" ∈ st.collected := by
          rcases not_missing_mem
              (show ("symptom_duration" : String) ∈ REQUIRED_INFO by simp [REQUIRED_INFO])
              (by rw [← hMISS]
                  exact not_mem_of_contains_false hndF) with hco | hsk
          · exact hco
          · have := hs _ hsk
            simp [OPTIONAL_INFO] at this
        have hpmem := hdur hdmem
        rw [hMISS] at hi
        exact absurd hpmem (mem_missing_not_collected hi)

theorem isPrefixOf_qm_dropWhile {m : List Char} (h : List.isPrefixOf ['?'] m = true) :
    List.isPrefixOf ['?'] (m.dropWhile isPySpace) = true := by
  cases m with
  | nil => simp [List.isPrefixOf] at h
  | cons c rest =>
    have hc : c = '?' := by
      simp only [List.isPrefixOf, Bool.and_eq_true, beq_iff_eq] at h
      exact h.1.symm
    subst hc
    have hq : isPySpace '?' = false := by decide
    rw [List.dropWhile_cons, hq]
    simpa using h

theorem last_qm_dropWhile (l : List Char) (h : List.isPrefixOf ['?'] l.reverse = true) :
    List.isPrefixOf ['?'] ((l.dropWhile isPySpace).reverse) = true := by
  induction l with
  | nil => simpa using h
  | cons c rest ih =>
    by_cases hc : isPySpace c = true
    · rw [List.dropWhile_cons, hc]
      simp only [if_true]
      apply ih
      rw [List.reverse_cons] at h
      cases hr : rest.reverse with
      | nil =>
        rw [hr] at h
        simp only [List.nil_append] at h
        have hcq : c = '?' := by
          simp only [List.isPrefixOf, Bool.and_eq_true, beq_iff_eq] at h
          exact h.1.symm
        subst hcq
        exact absurd hc (by decide)
      | cons d ds =>
        rw [hr] at h
        simp only [List.isPrefixOf, Bool.and_eq_true] at h ⊢
        exact ⟨h.1, trivial⟩
    · rw [List.dropWhile_cons, if_neg hc]
      exact h

theorem stripStr_keeps_qm {s : String} (h : endsWithStr s "?" = true) :
    endsWithStr (stripStr s) "?" = true := by
  have h' : List.isPrefixOf ['?'] s.toList.reverse = true := h
  show List.isPrefixOf ("?".toList.reverse) ((stripStr s).toList.reverse) = true
  have hts : (stripStr s).toList
      = ((s.toList.dropWhile isPySpace).reverse.dropWhile isPySpace).reverse := rfl
  rw [hts, List.reverse_reverse]
  exact isPrefixOf_qm_dropWhile (last_qm_dropWhile _ h')

theorem endsWithStr_append_qm (s : String) : endsWithStr (s ++ "?") "?" = true := by
  show List.isPrefixOf ("?".toList.reverse) ((s ++ "?").toList.reverse) = true
  have h1 : (s ++ "?").toList = s.toList ++ ['?'] := by
    show (s ++ "?").data = s.data ++ ['?']
    rw [String.data_append]
  rw [h1, List.reverse_append]
  show List.isPrefixOf ['?'] ('?' :: s.toList.reverse) = true
  simp [List.isPrefixOf]

theorem ensureQm_aux (r : String) :
    endsWithStr (stripStr (if endsWithStr r "?" then r else r ++ "?")) "?" = true := by
  split
  case isTrue h => exact stripStr_keeps_qm h
  case isFalse h => exact stripStr_keeps_qm (endsWithStr_append_qm _)

theorem ensureQm_endswith (s : String) : endsWithStr (ensureQm s) "?" = true := by
  unfold ensureQm
  exact ensureQm_aux _

theorem clean_llm_response_endswith (s : String) :
    endsWithStr (clean_llm_response s) "?" = true := by
  unfold clean_llm_response
  exact ensureQm_endswith _

theorem get_fallback_symptom_question_endswith (p : PatientProfile)
    (st : ConversationState) :
    endsWithStr (get_fallback_symptom_question p st) "?" = true := by
  unfold get_fallback_symptom_question
  dsimp only
  split_ifs <;> decide

theorem generate_symptom_specific_question_endswith (env : Env) (p : PatientProfile)
    (last : String) (st : ConversationState) :
    endsWithStr (generate_symptom_specific_question env p last st) "?" = true := by
  unfold generate_symptom_specific_question
  dsimp only
  split
  · exact get_fallback_symptom_question_endswith _ _
  · split
    · exact get_fallback_symptom_question_endswith _ _
    · exact clean_llm_response_endswith _

theorem pregnancyQuestion_no_qm : endsWithStr pregnancyQuestion "?" = false := by decide

/-- Every question produced by the adaptive phase ends in a question mark, so
it is never the pregnancy question. -/
theorem symptom_question_phase_qm_aux (env : Env) (st : ConversationState)
    (p : PatientProfile) (last : String) :
    ∀ st2x qx, symptom_question_phase env st p last = (st2x, qx) →
      qx = none ∨ ∃ s, qx = some s ∧ endsWithStr s "?" = true := by
  intro st2x qx hg
  unfold symptom_question_phase at hg
  dsimp only at hg
  split at hg
  · split at hg
    · split at hg
      · cases hg
        exact Or.inr ⟨_, rfl, get_fallback_symptom_question_endswith _ _⟩
      · cases hg
        exact Or.inr ⟨_, rfl, generate_symptom_specific_question_endswith _ _ _ _⟩
    · cases hg
      exact Or.inl rfl
  · split at hg
    · split at hg
      · cases hg
        exact Or.inr ⟨_, rfl, get_fallback_symptom_question_endswith _ _⟩
      · cases hg
        exact Or.inr ⟨_, rfl, generate_symptom_specific_question_endswith _ _ _ _⟩
    · cases hg
      exact Or.inl rfl

/-- Every question produced by the adaptive phase ends in a question mark, so
it is never the pregnancy question. -/
theorem symptom_question_phase_qm {env : Env} {st st2 : ConversationState}
    {p : PatientProfile} {last q : String}
    (h : symptom_question_phase env st p last = (st2, some q)) :
    endsWithStr q "?" = true := by
  rcases symptom_question_phase_qm_aux env st p last st2 (some q) h with hnone | ⟨s, hs1, hs2⟩
  · cases hnone
  · rw [Option.some.inj hs1]
    exact hs2

/-- The per-department keyword-hit count of `_route_department`. -/
def dept_score (all_text : String) (dk : String × List String) : Nat :=
  (dk.2.filter (containsSub all_text)).length

/-- Maximum of a list of naturals (0 when empty). -/
def maxSnd : List Nat → Nat
  | [] => 0
  | x :: xs => max x (maxSnd xs)

/-- Department routing as the specification words it: pregnancy short-circuits
to obstetrics; otherwise the department with the highest keyword-hit count
wins, ties broken by the declared priority order of `DEPARTMENT_ROUTING`,
falling back to General Medicine when no department scores above zero. -/
def route_department_spec (patient : PatientProfile) (diagnoses : List Diagnosis) : String :=
  let all_text := combined_text patient diagnoses
  if patient.is_pregnant == some true then "Obstetrics & Gynecology"
  else
    let scores := DEPARTMENT_ROUTING.map (fun dk => (dk.1, dept_score all_text dk))
    if maxSnd (scores.map Prod.snd) = 0 then "General Medicine"
    else
      match scores.find? (fun x => x.2 == maxSnd (scores.map Prod.snd)) with
      | some d => d.1
      | none => "General Medicine"

/-- The fold step of `maxByFirst`. -/
def mbfStep (best : Option (String × Nat)) (x : String × Nat) : Option (String × Nat) :=
  match best with
  | none => some x
  | some b => if x.2 > b.2 then some x else some b

/-- The positivity filter of `_route_department`. -/
def posPair (x : String × Nat) : Option (String × Nat) :=
  if x.2 > 0 then some x else none

theorem foldl_mbfStep_some (l : List (String × Nat)) :
    ∀ b : String × Nat, l.foldl mbfStep (some b) =
      if maxSnd (l.map Prod.snd) ≤ b.2 then some b
      else l.find? (fun x => x.2 == maxSnd (l.map Prod.snd)) := by
  induction l with
  | nil =>
    intro b
    simp [maxSnd]
  | cons x xs ih =>
    intro b
    rw [List.foldl_cons]
    have hstep : mbfStep (some b) x = some (if x.2 > b.2 then x else b) := by
      show (if x.2 > b.2 then some x else some b) = some (if x.2 > b.2 then x else b)
      split <;> rfl
    rw [hstep]
    by_cases hxb : x.2 > b.2
    · rw [if_pos hxb, ih x]
      by_cases hmx : maxSnd (xs.map Prod.snd) ≤ x.2
      · have hM : maxSnd ((x :: xs).map Prod.snd) = x.2 := by
          simp only [List.map_cons, maxSnd]
          omega
        rw [if_pos hmx, hM, if_neg (by omega)]
        rw [List.find?_cons_of_pos]
        simp
      · have hM : maxSnd ((x :: xs).map Prod.snd) = maxSnd (xs.map Prod.snd) := by
          simp only [List.map_cons, maxSnd]
          omega
        rw [if_neg hmx, hM, if_neg (by omega)]
        rw [List.find?_cons_of_neg]
        simp only [beq_iff_eq, decide_eq_true_eq]
        omega
    · rw [if_neg hxb, ih b]
      by_cases hmx : maxSnd (xs.map Prod.snd) ≤ b.2
      · have hM : maxSnd ((x :: xs).map Prod.snd) ≤ b.2 := by
          simp only [List.map_cons, maxSnd]
          omega
        rw [if_pos hmx, if_pos hM]
      · have hM : maxSnd ((x :: xs).map Prod.snd) = maxSnd (xs.map Prod.snd) := by
          simp only [List.map_cons, maxSnd]
          omega
        rw [if_neg hmx, hM, if_neg (by omega)]
        rw [List.find?_cons_of_neg]
        simp only [beq_iff_eq, decide_eq_true_eq]
        omega

theorem maxSnd_filterPos (l : List (String × Nat)) :
    maxSnd ((l.filterMap posPair).map Prod.snd) = maxSnd (l.map Prod.snd) := by
  induction l with
  | nil => rfl
  | cons x xs ih =>
    by_cases hx : x.2 > 0
    · rw [List.filterMap_cons_some (show posPair x = some x by unfold posPair; rw [if_pos hx])]
      simp only [List.map_cons, maxSnd, ih]
    · rw [List.filterMap_cons_none (show posPair x = none by unfold posPair; rw [if_neg hx])]
      simp only [List.map_cons, maxSnd, ih]
      omega

theorem find_filterPos (l : List (String × Nat)) (M : Nat) (hM : 0 < M) :
    (l.filterMap posPair).find? (fun x => x.2 == M) = l.find? (fun x => x.2 == M) := by
  induction l with
  | nil => rfl
  | cons x xs ih =>
    by_cases hx : x.2 > 0
    · rw [List.filterMap_cons_some (show posPair x = some x by unfold posPair; rw [if_pos hx])]
      by_cases hxm : x.2 = M
      · rw [List.find?_cons_of_pos _ (by simp [hxm]),
            List.find?_cons_of_pos _ (by simp [hxm])]
      · rw [List.find?_cons_of_neg _ (by simp [hxm]),
            List.find?_cons_of_neg _ (by simp [hxm])]
        exact ih
    · rw [List.filterMap_cons_none (show posPair x = none by unfold posPair; rw [if_neg hx])]
      rw [List.find?_cons_of_neg _ (by simp; omega)]
      exact ih

theorem maxByFirst_filterPos (l : List (String × Nat)) :
    maxByFirst (l.filterMap posPair) =
      if maxSnd (l.map Prod.snd) = 0 then none
      else (l.find? (fun x => x.2 == maxSnd (l.map Prod.snd))).map Prod.fst := by
  have hfold : ∀ m : List (String × Nat), maxByFirst m = (m.foldl mbfStep none).map Prod.fst :=
    fun m => rfl
  rw [hfold]
  cases hl : l.filterMap posPair with
  | nil =>
    have h0 : maxSnd (l.map Prod.snd) = 0 := by
      rw [← maxSnd_filterPos, hl]
      rfl
    rw [if_pos h0]
    rfl
  | cons y ys =>
    have hy : 0 < y.2 := by
      have hmem : y ∈ l.filterMap posPair := by rw [hl]; exact List.mem_cons_self y ys
      obtain ⟨a, _, ha⟩ := List.mem_filterMap.mp hmem
      unfold posPair at ha
      split at ha
      · cases ha
        assumption
      · cases ha
    have hMpos : 0 < maxSnd (l.map Prod.snd) := by
      rw [← maxSnd_filterPos, hl]
      simp only [List.map_cons, maxSnd]
      omega
    rw [if_neg (by omega)]
    rw [List.foldl_cons]
    have hstep : mbfStep none y = some y := rfl
    rw [hstep, foldl_mbfStep_some]
    have hMf : maxSnd (l.map Prod.snd) = max y.2 (maxSnd (ys.map Prod.snd)) := by
      rw [← maxSnd_filterPos l, hl]
      simp [maxSnd]
    rw [← find_filterPos l (maxSnd (l.map Prod.snd)) hMpos, hl]
    by_cases hc : maxSnd (ys.map Prod.snd) ≤ y.2
    · rw [if_pos hc]
      have hyM : y.2 = maxSnd (l.map Prod.snd) := by
        rw [hMf, Nat.max_eq_left hc]
      rw [List.find?_cons_of_pos _ (by simp [hyM])]
    · rw [if_neg hc]
      have hysM : maxSnd (ys.map Prod.snd) = maxSnd (l.map Prod.snd) := by
        rw [hMf, Nat.max_eq_right (le_of_lt (not_le.mp hc))]
      rw [List.find?_cons_of_neg _ (by
        simp only [beq_iff_eq, decide_eq_true_eq]
        omega)]
      rw [hysM]

theorem route_department_eq_spec (p : PatientProfile) (ds : List Diagnosis) :
    route_department p ds = route_department_spec p ds := by
  unfold route_department route_department_spec
  dsimp only
  split
  · rfl
  · have hcomp : DEPARTMENT_ROUTING.filterMap (fun dk =>
        let score := (dk.2.filter (containsSub (combined_text p ds))).length
        if score > 0 then some (dk.1, score) else none)
        = (DEPARTMENT_ROUTING.map
            (fun dk => (dk.1, dept_score (combined_text p ds) dk))).filterMap posPair := by
      rw [List.filterMap_map]
      rfl
    rw [hcomp, maxByFirst_filterPos]
    by_cases hM : maxSnd ((DEPARTMENT_ROUTING.map
        (fun dk => (dk.1, dept_score (combined_text p ds) dk))).map Prod.snd) = 0
    · rw [if_pos hM, if_pos hM]
    · rw [if_neg hM, if_neg hM]
      cases hf : (DEPARTMENT_ROUTING.map
          (fun dk => (dk.1, dept_score (combined_text p ds) dk))).find?
          (fun x => x.2 == maxSnd ((DEPARTMENT_ROUTING.map
            (fun dk => (dk.1, dept_score (combined_text p ds) dk))).map Prod.snd)) with
      | none => rfl
      | some d => rfl

theorem andE {a b : Bool} (h : (a && b) = true) : a = true ∧ b = true := by
  simp only [Bool.and_eq_true] at h
  exact h

theorem parse_history_block_mh (text tl : String) (is_skip : Bool)
    (cq : Option String) (p : PatientProfile) (st : ConversationState) :
    (parse_history_block text tl is_skip cq p st).1.medical_history ≠ p.medical_history →
    cq = some "medical_history" := by
  unfold parse_history_block
  split
  case isTrue hcnd =>
    intro _
    have hd := (andE
      (andE (andE hcnd).1).1).2
    exact beq_iff_eq.mp hd
  case isFalse =>
    intro hne
    exact absurd (parse_pregnancy_block_patient text is_skip p st).2.2.2.2.2.2.2.1 hne

/-- Frame of `parse_response` over the patient record: apart from the symptom
list and the pregnancy flag, a field changes only when it is the currently
asked question; the untouched remainder is preserved outright. -/
theorem parse_response_frame (text : String) (p : PatientProfile) (st : ConversationState) :
    ((parse_response text p st).1.age ≠ p.age →
      parse_current_question text p st = some "age") ∧
    ((parse_response text p st).1.gender ≠ p.gender →
      parse_current_question text p st = some "gender") ∧
    ((parse_response text p st).1.duration ≠ p.duration →
      parse_current_question text p st = some "symptom_duration") ∧
    ((parse_response text p st).1.severity ≠ p.severity →
      parse_current_question text p st = some "symptom_severity") ∧
    ((parse_response text p st).1.medical_history ≠ p.medical_history →
      parse_current_question text p st = some "medical_history") ∧
    (parse_response text p st).1.name = p.name ∧
    (parse_response text p st).1.medications = p.medications ∧
    (parse_response text p st).1.recent_travel = p.recent_travel ∧
    (parse_response text p st).1.dietary_changes = p.dietary_changes ∧
    (parse_response text p st).1.fever = p.fever := by
  obtain ⟨-, ⟨fa, fg, fd, fsv, fmh, fip, fn, fm, frt, fdc, ff⟩, -⟩ :=
    parse_symptom_stage_facts text p st
  rcases hpr : parse_response text p st with ⟨p2, st2⟩
  unfold parse_response at hpr
  dsimp only at hpr
  set TL := stripStr (toLowerStr text) with hTL
  set PS := parse_symptom_stage text p st with hPS
  set MISS := get_missing_info PS.2 with hMISS
  have hcq : parse_current_question text p st = MISS.head? := rfl
  split at hpr
  · cases hpr
    exact ⟨fun hne => absurd fa hne, fun hne => absurd fg hne, fun hne => absurd fd hne,
      fun hne => absurd fsv hne, fun hne => absurd fmh hne, fn, fm, frt, fdc, ff⟩
  split at hpr
  case isTrue hcnd =>
    cases hpr
    have hz := (andE (andE hcnd).1).2
    exact ⟨fun _ => hcq.trans (beq_iff_eq.mp hz), fun hne => absurd fg hne,
      fun hne => absurd fd hne, fun hne => absurd fsv hne, fun hne => absurd fmh hne,
      fn, fm, frt, fdc, ff⟩
  split at hpr
  · cases hpr
    exact ⟨fun hne => absurd fa hne, fun hne => absurd fg hne, fun hne => absurd fd hne,
      fun hne => absurd fsv hne, fun hne => absurd fmh hne, fn, fm, frt, fdc, ff⟩
  split at hpr
  case isTrue hcnd =>
    cases hpr
    have hz := (andE (andE hcnd).1).2
    exact ⟨fun hne => absurd fa hne, fun _ => hcq.trans (beq_iff_eq.mp hz),
      fun hne => absurd fd hne, fun hne => absurd fsv hne, fun hne => absurd fmh hne,
      fn, fm, frt, fdc, ff⟩
  split at hpr
  case isTrue hcnd =>
    cases hpr
    have hz := (andE (andE hcnd).1).2
    exact ⟨fun hne => absurd fa hne, fun hne => absurd fg hne,
      fun _ => hcq.trans (beq_iff_eq.mp hz), fun hne => absurd fsv hne,
      fun hne => absurd fmh hne, fn, fm, frt, fdc, ff⟩
  split at hpr
  case isTrue hcnd =>
    cases hpr
    have hz := (andE
      (andE (andE hcnd).1).1).2
    exact ⟨fun hne => absurd fa hne, fun hne => absurd fg hne, fun hne => absurd fd hne,
      fun _ => hcq.trans (beq_iff_eq.mp hz), fun hne => absurd fmh hne,
      fn, fm, frt, fdc, ff⟩
  case isFalse =>
    have hp2 : (parse_history_block text TL
        (skip_phrases.any (containsSub TL)) MISS.head? PS.1 PS.2).1 = p2 :=
      congrArg Prod.fst hpr
    obtain ⟨b1, b2, b3, _, b5, b6, b7, b9, b10, b11⟩ :=
      parse_history_block_patient text TL (skip_phrases.any (containsSub TL))
        MISS.head? PS.1 PS.2
    rw [← hp2]
    refine ⟨fun hne => absurd (b2.trans fa) hne, fun hne => absurd (b3.trans fg) hne,
      fun hne => absurd (b5.trans fd) hne, fun hne => absurd (b6.trans fsv) hne,
      fun hne => ?_, b1.trans fn, b7.trans fm, b9.trans frt, b10.trans fdc, b11.trans ff⟩
    rw [hcq]
    refine parse_history_block_mh text TL (skip_phrases.any (containsSub TL))
      MISS.head? PS.1 PS.2 ?_
    rw [← fmh] at hne
    exact hne

theorem notE {a : Bool} (h : (!a) = true) : a = false := by
  cases a
  · rfl
  · exact absurd h (by decide)

/-- The planner emits the pregnancy question only from its pregnancy branch:
gender female, pregnancy-relevant symptoms, flag not yet set — and the branch
sets the flag.  (The source computes `is_childbearing_age` but its condition
does not test it.) -/
theorem generate_question_pregnancy_gate (env : Env) (st : ConversationState)
    (p : PatientProfile) (last : String)
    (h : (generate_question env st p last).2 = some pregnancyQuestion) :
    gender_is_female p = true ∧ is_pregnancy_relevant p.symptoms = true ∧
    st.pregnancy_question_asked = false ∧
    (generate_question env st p last).1.pregnancy_question_asked = true := by
  rcases hg : generate_question env st p last with ⟨st2, q⟩
  rw [hg] at h
  dsimp only at h
  subst h
  unfold generate_question at hg
  dsimp only at hg
  set MISS := get_missing_info st with hMISS
  split at hg
  · exact absurd (Option.some.inj (congrArg Prod.snd hg)) (by decide)
  split at hg
  · exact absurd (Option.some.inj (congrArg Prod.snd hg)) (by decide)
  split at hg
  · exact absurd (Option.some.inj (congrArg Prod.snd hg)) (by decide)
  split at hg
  · exact absurd (Option.some.inj (congrArg Prod.snd hg)) (by decide)
  split at hg
  · exact absurd (Option.some.inj (congrArg Prod.snd hg)) (by decide)
  split at hg
  · exact absurd (Option.some.inj (congrArg Prod.snd hg)) (by decide)
  split at hg
  case isTrue hcnd =>
    cases hg
    refine ⟨(andE (andE hcnd).1).2, (andE hcnd).2,
      notE (andE (andE (andE hcnd).1).1).2, rfl⟩
  split at hg
  case isTrue hcnd =>
    have h1 := symptom_question_phase_qm hg
    rw [pregnancyQuestion_no_qm] at h1
    exact Bool.noConfusion h1
  case isFalse =>
    exact absurd (congrArg Prod.snd hg) (by simp)

theorem chat_question_stage_report (env : Env) (sess : Session) (input : String) :
    (chat_question_stage env sess input).report.isSome = true →
    (chat_question_stage env sess input).is_final = true := by
  unfold chat_question_stage
  dsimp only
  split
  · intro _
    exact (finalize_session env sess).2.2
  · split
    · intro h
      exact Bool.noConfusion h
    · split
      · intro _
        exact (finalize_session env _).2.2
      · split
        · intro h
          exact Bool.noConfusion h
        · intro _
          exact (finalize_session env _).2.2

theorem chat_report_final (env : Env) (sess : Session) (input : String) :
    (chat env sess input).report.isSome = true → (chat env sess input).is_final = true := by
  unfold chat
  dsimp only
  split
  · split
    · intro _
      rfl
    · exact chat_question_stage_report env _ input
  · exact chat_question_stage_report env _ input

theorem mark_skipped_critical {i : String} (st : ConversationState)
    (hi : i ∈ CRITICAL_INFO) : mark_skipped st i = st := by
  unfold mark_skipped
  rw [if_neg]
  intro hc
  have := containsStr_iff.mp hc
  simp only [CRITICAL_INFO, List.mem_cons, List.not_mem_nil, or_false] at hi
  rcases hi with rfl | rfl | rfl | rfl <;> simp [OPTIONAL_INFO] at this

theorem increment_attempt_grow (st : ConversationState) (i : String) :
    StGrow st (increment_attempt st i).2 :=
  ⟨fun _ hx => hx, fun _ hx => hx, le_refl _, le_refl _, rfl, rfl⟩

/-- The orchestration environment used for the closed evaluations: the model
responds with the empty string (as the client does on failure). -/
def env0 : Env := { llm := fun _ => "", now := "" }

/-- Replay a list of user messages through `chat` from a fresh session. -/
def run_chats (env : Env) (inputs : List String) : Session :=
  inputs.foldl (fun s i => (chat env s i).session) initialSession

theorem reachable_foldl (env : Env) (l : List String) :
    ∀ s : Session, Reachable s →
      Reachable (l.foldl (fun s i => (chat env s i).session) s) := by
  induction l with
  | nil =>
    intro s h
    exact h
  | cons x xs ih =>
    intro s h
    exact ih _ (Reachable.step env x h)

theorem reachable_run_chats (env : Env) (l : List String) : Reachable (run_chats env l) :=
  reachable_foldl env l initialSession Reachable.init

/-! ## Concrete sessions and records used by the closed evaluations -/

/-- Five opening messages of an 80-year-old woman with nausea. -/
def c2_msgs : List String := ["i have nausea", "i am 80", "female", "2 days", "5"]

def c2_sess : Session := run_chats env0 c2_msgs

/-- A state whose required information is complete, facing a female patient
with a pregnancy-relevant symptom. -/
def c2wP : PatientProfile := { gender := some "female", symptoms := ["nausea"] }

def c2wSt : ConversationState :=
  { collected := ["age", "gender", "primary_symptoms", "symptom_duration",
      "symptom_severity", "medical_history"], turn_count := 5 }

/-- A patient and state whose current question is the symptom duration. -/
def c3p : PatientProfile :=
  { age := some 30, gender := some "female", symptoms := ["nausea"] }

def c3st : ConversationState :=
  { collected := ["age", "gender", "primary_symptoms"], turn_count := 4 }

/-- A patient and state whose current question is the age. -/
def c3wP : PatientProfile := { symptoms := ["headache"] }

def c3wSt : ConversationState := { collected := ["primary_symptoms"], turn_count := 2 }

/-- A fever-only presentation with the given duration text. -/
def c4p (d : String) : PatientProfile := { symptoms := ["fever"], duration := some d }

/-- A full session: answers for every item, then three substantive replies to
the adaptive questions. -/
def c7w : List String := ["i have a headache", "30", "male", "2 days", "5", "no",
  "okay", "okay", "okay"]

/-- Eleven messages whose last five are too short (≤ 3 characters) for the
adaptive bookkeeping of `chat` to count an answered question. -/
def c7c : List String := ["i have a headache", "30", "male", "2 days", "5", "no",
  "ok", "ok", "ok", "ok", "ok"]

def u11 : Session := run_chats env0 c7c

/-- `u11` after the turn increment and history append that `chat` performs on
its twelfth call before parsing. -/
def u11b : Session :=
  { u11 with state := { u11.state with turn_count := u11.state.turn_count + 1 },
             conversation_history := u11.conversation_history ++ [("user", "ok")] }

/-- The session `chat` hands to its question-planning stage on the twelfth
call. -/
def s12 : Session := chat_parse_stage u11b "ok"

def c8P : PatientProfile := { gender := some "male", symptoms := ["headache"] }

def c8St : ConversationState :=
  { collected := ["age", "gender", "primary_symptoms", "symptom_duration",
      "symptom_severity", "medical_history"], symptom_specific_questions_asked := 3,
    turn_count := 6 }

def c8Sess : Session := { patient := c8P, state := c8St }

/-! ## The claims -/

/-- C1: a non-null report entails `is_final = true`; the converse direction of
the specification's "iff" is refuted by `C1_counterexample`. -/
theorem C1_report_nonnull_final :
    ∀ (env : Env) (s : Session) (input : String),
      (chat env s input).report = none ∨ (chat env s input).is_final = true := by
  intro env s input
  cases hrep : (chat env s input).report with
  | none => exact Or.inl rfl
  | some r =>
    refine Or.inr (chat_report_final env s input ?_)
    rw [hrep]
    rfl

/-- C1 refutation: the arithmetic rejection returns `is_final = true` with a
null report, so report non-null is not equivalent to `is_final`. -/
theorem C1_counterexample :
    (chat env0 initialSession "what's 5+5?").is_final = true ∧
    (chat env0 initialSession "what's 5+5?").report = none := by
  decide

/-- C2: the planner emits the pregnancy question only for a female patient
with pregnancy-relevant symptoms and an unset flag; emission sets the flag,
the flag is never cleared, and a skip answer in the parser's pregnancy block
records `is_pregnant = false`.  The specification's age condition is absent
from the code (`C2_counterexample`). -/
theorem C2_pregnancy_gate :
    ∀ (env : Env) (st : ConversationState) (p : PatientProfile) (last text : String),
      ((generate_question env st p last).2 = some pregnancyQuestion →
        gender_is_female p = true ∧ is_pregnancy_relevant p.symptoms = true ∧
        st.pregnancy_question_asked = false ∧
        (generate_question env st p last).1.pregnancy_question_asked = true) ∧
      (st.pregnancy_question_asked = true →
        (generate_question env st p last).1.pregnancy_question_asked = true) ∧
      (gender_is_female p = true → p.is_pregnant = none →
        (parse_pregnancy_block text true p st).1.is_pregnant = some false) := by
  intro env st p last text
  refine ⟨generate_question_pregnancy_gate env st p last,
    (generate_question_effects env st p last).2.2.2.2.2.2.2, ?_⟩
  intro hf hip
  unfold parse_pregnancy_block
  rw [if_pos (by rw [hf, hip]; rfl)]
  rfl

theorem C2_witness :
    (generate_question env0 c2wSt c2wP "x").1.pregnancy_question_asked = true ∧
    (parse_pregnancy_block "skip" true c2wP c2wSt).1.is_pregnant = some false :=
  ⟨((C2_pregnancy_gate env0 c2wSt c2wP "x" "skip").1 (by decide)).2.2.2,
   (C2_pregnancy_gate env0 c2wSt c2wP "x" "skip").2.2 (by decide) (by decide)⟩

/-- C2 refutation: an 80-year-old woman — outside the claimed [15,50] window —
is still asked the pregnancy question, because the code never tests the
computed childbearing-age condition. -/
theorem C2_counterexample :
    (chat env0 c2_sess "no").message = pregnancyQuestion ∧
    c2_sess.patient.age = some 80 := by
  decide

/-- C3: for the explicitly dispatched fields, an answer is applied only when
its item is the current question, and the untouched remainder of the record is
preserved; the pregnancy flag is exempt (`C3_counterexample`). -/
theorem C3_dispatch_frame :
    ∀ (text : String) (p : PatientProfile) (st : ConversationState),
      ((parse_response text p st).1.age ≠ p.age →
        parse_current_question text p st = some "age") ∧
      ((parse_response text p st).1.gender ≠ p.gender →
        parse_current_question text p st = some "gender") ∧
      ((parse_response text p st).1.duration ≠ p.duration →
        parse_current_question text p st = some "symptom_duration") ∧
      ((parse_response text p st).1.severity ≠ p.severity →
        parse_current_question text p st = some "symptom_severity") ∧
      ((parse_response text p st).1.medical_history ≠ p.medical_history →
        parse_current_question text p st = some "medical_history") ∧
      (parse_response text p st).1.name = p.name ∧
      (parse_response text p st).1.medications = p.medications ∧
      (parse_response text p st).1.recent_travel = p.recent_travel ∧
      (parse_response text p st).1.dietary_changes = p.dietary_changes ∧
      (parse_response text p st).1.fever = p.fever :=
  fun text p st => parse_response_frame text p st

theorem C3_witness : parse_current_question "i am 30" c3wP c3wSt = some "age" :=
  (C3_dispatch_frame "i am 30" c3wP c3wSt).1 (by decide)

/-- C3 refutation: while the duration question is pending, the answer "no"
flips `is_pregnant` — a field other than the one currently asked — through the
unguarded trailing pregnancy block. -/
theorem C3_counterexample :
    parse_current_question "no" c3p c3st = some "symptom_duration" ∧
    c3p.is_pregnant = none ∧
    (parse_response "no" c3p c3st).1.is_pregnant = some false := by
  decide

/-- C4: for a fever presentation with no keyword hit and no recorded severity,
the triage level is 5 exactly when the duration text contains one of
`day`, `days`, `1`, `2`, `3` — a substring test, not the specification's
short-versus-prolonged distinction (`C4_counterexample`). -/
theorem C4_fever_duration :
    ∀ (p : PatientProfile) (ds : List Diagnosis),
      triage_keyword_level (combined_text p ds) = none →
      p.severity = none →
      containsSub (combined_text p ds) "fever" = true →
      calculate_triage p ds =
        (if ["day", "days", "1", "2", "3"].any
            (containsSub (toLowerStr (p.duration.getD ""))) then 5 else 4) := by
  intro p ds hk hsev hf
  unfold calculate_triage
  dsimp only
  simp only [hk, hsev, hf, if_true]

theorem C4_witness : calculate_triage (c4p "5 hours") [] = 4 :=
  (C4_fever_duration (c4p "5 hours") [] (by decide) (by decide) (by decide)).trans
    (by decide)

/-- C4 refutation: "2 weeks" is a prolonged duration (the engine's own
`is_short_duration` rejects it) yet triages to 5 because it contains the digit
2, while the short "5 hours" triages to 4. -/
theorem C4_counterexample :
    calculate_triage (c4p "2 weeks") [] = 5 ∧ is_short_duration "2 weeks" = false ∧
    calculate_triage (c4p "5 hours") [] = 4 ∧ is_short_duration "5 hours" = true := by
  decide

/-- C5: department routing coincides with the specification's description —
pregnancy short-circuits to obstetrics, otherwise the highest keyword-hit
department wins with ties broken by the declared order of
`DEPARTMENT_ROUTING`, defaulting to General Medicine at score zero. -/
theorem C5_routing_spec :
    ∀ (p : PatientProfile) (ds : List Diagnosis),
      route_department p ds = route_department_spec p ds :=
  route_department_eq_spec

/-- C6: in every reachable session the collected and skipped sets are
disjoint and skipped items lie in {age, gender}; `mark_skipped` on a critical
item leaves the state unchanged. -/
theorem C6_skipped_invariant :
    (∀ s : Session, Reachable s →
      (∀ x ∈ s.state.collected, x ∉ s.state.skipped) ∧
      (∀ x ∈ s.state.skipped, x ∈ ["age", "gender"])) ∧
    (∀ (st : ConversationState) (i : String), i ∈ CRITICAL_INFO →
      (mark_skipped st i).skipped = st.skipped) := by
  constructor
  · intro s h
    obtain ⟨hd, hs, -⟩ := reachable_inv h
    exact ⟨hd, fun x hx => hs x hx⟩
  · intro st i hi
    rw [mark_skipped_critical st hi]

theorem C6_witness :
    (∀ x ∈ initialSession.state.skipped, x ∈ ["age", "gender"]) ∧
    (mark_skipped c3st "primary_symptoms").skipped = c3st.skipped :=
  ⟨(C6_skipped_invariant.1 initialSession Reachable.init).2,
   C6_skipped_invariant.2 c3st "primary_symptoms" (by decide)⟩

/-- C7: under reachability the planner's `none` guarantees completeness only
of the state it returns; the state it was called on can still be incomplete
(`C7_counterexample`). -/
theorem C7_null_means_complete :
    ∀ (env : Env) (s : Session) (last : String), Reachable s →
      (generate_question env s.state s.patient last).2 = none →
      is_complete (generate_question env s.state s.patient last).1 = true := by
  intro env s last h hnone
  obtain ⟨-, hs, -, -, hsym, hdur⟩ := reachable_inv h
  exact generate_question_none_complete env s.state s.patient last hs hsym hdur hnone

theorem C7_witness :
    is_complete (generate_question env0 (run_chats env0 c7w).state
      (run_chats env0 c7w).patient "x").1 = true :=
  C7_null_means_complete env0 (run_chats env0 c7w) "x"
    (reachable_run_chats env0 c7w) (by decide)

/-- C7 refutation: on the twelfth call of the short-answer trace the planner
is entered with an incomplete state (two adaptive questions asked) and still
returns `none`, because the forced progression inside the adaptive phase
completes the state mid-call; the call finalizes. -/
theorem C7_counterexample :
    is_complete s12.state = false ∧
    (generate_question env0 s12.state s12.patient "ok").2 = none ∧
    (chat env0 u11 "ok").is_final = true := by
  decide

/-- C8: once `is_complete` holds it is preserved by every state-mutating
operation of the session: a full `chat` turn, response parsing, marking
collected or skipped, the adaptive-question bookkeeping, attempt counting,
and question planning. -/
theorem C8_complete_monotone :
    ∀ (env : Env) (s : Session) (input text i : String),
      is_complete s.state = true →
      is_complete (chat env s input).session.state = true ∧
      is_complete (parse_response text s.patient s.state).2 = true ∧
      is_complete (mark_collected s.state i) = true ∧
      is_complete (mark_skipped s.state i) = true ∧
      is_complete (mark_symptom_question_asked s.state) = true ∧
      is_complete (increment_attempt s.state i).2 = true ∧
      is_complete (generate_question env s.state s.patient input).1 = true := by
  intro env s input text i h
  exact ⟨is_complete_mono (chat_grow env s input) h,
    is_complete_mono (parse_response_grow text s.patient s.state) h,
    is_complete_mono (mark_collected_grow s.state i) h,
    is_complete_mono (mark_skipped_grow s.state i) h,
    is_complete_mono (msqa_grow s.state) h,
    is_complete_mono (increment_attempt_grow s.state i) h,
    is_complete_mono (genq_grow env s.state s.patient input) h⟩

theorem C8_witness :
    is_complete c8St = true ∧
    is_complete (chat env0 c8Sess "hello there").session.state = true :=
  ⟨by decide, (C8_complete_monotone env0 c8Sess "hello there" "x" "age" (by decide)).1⟩

/-- C9: in every reachable session the adaptive-question counter stays within
its limit of three. -/
theorem C9_adaptive_bound :
    ∀ s : Session, Reachable s → s.state.symptom_specific_questions_asked ≤ 3 := by
  intro s h
  obtain ⟨-, -, hq, hm, -⟩ := reachable_inv h
  rw [hm] at hq
  exact hq

theorem C9_witness : (run_chats env0 c7w).state.symptom_specific_questions_asked ≤ 3 :=
  C9_adaptive_bound (run_chats env0 c7w) (reachable_run_chats env0 c7w)

/-- C10: a text whose normalized form avoids every female token but contains
the letter sequence "man" anywhere — even inside "many" — yields gender
male. -/
theorem C10_man_substring :
    ∀ text : String,
      containsSub (stripStr (toLowerStr text)) "female" = false →
      containsSub (stripStr (toLowerStr text)) "woman" = false →
      containsSub (stripStr (toLowerStr text)) "girl" = false →
      containsSub (stripStr (toLowerStr text)) "lady" = false →
      containsSub (stripStr (toLowerStr text)) "man" = true →
      extract_gender text = some "male" := by
  intro text hf hw hg hl hm
  unfold extract_gender
  dsimp only
  have h1 : (["female", "woman", "girl", "lady"].any
      (containsSub (stripStr (toLowerStr text)))) = false := by
    simp [hf, hw, hg, hl]
  have h2 : ((["male", "man", "boy", "gentleman"].any
      (containsSub (stripStr (toLowerStr text))))
      && !containsSub (stripStr (toLowerStr text)) "female") = true := by
    simp [hm, hf]
  rw [h1, h2]
  simp

theorem C10_witness : extract_gender "many" = some "male" :=
  C10_man_substring "many" (by decide) (by decide) (by decide) (by decide) (by decide)

end Intellicare
